import Mathlib

/-!
# whisper-t: a verification development of `main.go`

`main.go` reads one file, uploads it in a single multipart HTTP POST to a
transcription endpoint and prints the `text` field of the JSON answer.

Modelling conventions.

* Go `string` and `[]byte` values are byte sequences: `Bytes = List Nat`
  (a byte is a number below 256).  `str "..."` is the UTF-8 encoding of a
  literal.
* The outside world (command line, environment, file system, the random
  bytes of the multipart boundary, the round trips of the HTTP transport) is
  a parameter, `World`.
* The method `Do` of the HTTP client is modelled with what it does before
  and between round trips: the transport validates the headers before it
  sends anything, and the client follows redirects, up to ten requests.
* A Go function with effects is a `Proc`: it threads the text written to
  standard output and the list of external events, and it ends by returning,
  by `os.Exit`, or by a run-time panic.
* `json.Unmarshal` is modelled for the one target type the program uses,
  `*Transcript`: a byte-by-byte scanner following `encoding/json`, and the
  store into the `Text` field.
-/

namespace WhisperT

set_option maxRecDepth 100000

/-! ## Bytes and text -/

/-- A byte sequence: the model of both `string` and `[]byte`. -/
abbrev Bytes := List Nat

/-- Port of `utf8.EncodeRune`: the UTF-8 encoding of a code point; surrogates
and values above U+10FFFF are encoded as U+FFFD. -/
def EncodeRune (r : Nat) : Bytes :=
  if r ≤ 0x7F then [r]
  else if r ≤ 0x7FF then [0xC0 + r / 64, 0x80 + r % 64]
  else if 0x10FFFF < r ∨ (0xD800 ≤ r ∧ r ≤ 0xDFFF) then [0xEF, 0xBF, 0xBD]
  else if r ≤ 0xFFFF then [0xE0 + r / 4096, 0x80 + r / 64 % 64, 0x80 + r % 64]
  else [0xF0 + r / 262144, 0x80 + r / 4096 % 64, 0x80 + r / 64 % 64, 0x80 + r % 64]

/-- The bytes of a string literal of the source. -/
def str (s : String) : Bytes :=
  s.toList.flatMap (fun c => EncodeRune c.toNat)

/-- The digit loop of `%d`: the decimal digits of `n`, the last one first.
With `fuel` above `n` the loop ends by itself. -/
def decimalDigits : Nat → Nat → Bytes
  | 0, _ => []
  | fuel + 1, n =>
    if n < 10 then [0x30 + n] else (0x30 + n % 10) :: decimalDigits fuel (n / 10)

/-- Decimal rendering of a natural number (`%d`). -/
def decimalNat (n : Nat) : Bytes :=
  (decimalDigits (n + 1) n).reverse

/-- Decimal rendering of a Go `int` by the verb `%d`. -/
def decimal : Int → Bytes
  | Int.ofNat n => decimalNat n
  | Int.negSucc n => 0x2D :: decimalNat (n + 1)

/-- Reading a run of decimal digits, the first one first, onto `acc`; `none`
when a byte is no digit. -/
def readDigits : Nat → Bytes → Option Nat
  | acc, [] => some acc
  | acc, d :: rest =>
    if 0x30 ≤ d ∧ d ≤ 0x39 then readDigits (acc * 10 + (d - 0x30)) rest else none

/-- The number a decimal numeral stands for: digits, at least one. -/
def readNat (s : Bytes) : Option Nat :=
  if s = [] then none else readDigits 0 s

/-- The integer a decimal numeral stands for: an optional minus sign, then
digits. -/
def readInt : Bytes → Option Int
  | 0x2D :: rest => (readNat rest).map (fun n => - (n : Int))
  | s => (readNat s).map (fun n => (n : Int))

/-! ## Errors -/

/-- A Go `error` value.  `foreign` is an error made outside this program (by
`os`, `net/http`, `encoding/json`) with its message; `errorf` is one made by
`fmt.Errorf` without `%w`, with its message; `wrap` is one made by
`fmt.Errorf` with `%w`, with its full message and the wrapped error. -/
inductive GoError where
  | foreign (msg : Bytes)
  | errorf (msg : Bytes)
  | wrap (msg : Bytes) (inner : GoError)
deriving DecidableEq

/-- The method `Error()`. -/
def GoError.Error : GoError → Bytes
  | .foreign msg => msg
  | .errorf msg => msg
  | .wrap msg _ => msg

/-- The call `fmt.Errorf(pre + "%w", err)`. -/
def Errorf_w (pre : Bytes) (err : GoError) : GoError :=
  .wrap (pre ++ err.Error) err

/-! ## `encoding/json`: the scanner

A port of `scanner.go`.  The scanner is fed one byte at a time; `step` names
the function that handles the next byte, `parseState` is the stack of open
composite values (the head of the list is the innermost one, Go's last slice
element). -/

/-- The errors `json.Unmarshal` can report for this program's target type. -/
inductive JsonError where
  /-- `SyntaxError`: "invalid character c" followed by the context. -/
  | invalidCharacter (c : Nat) (context : Bytes)
  /-- `SyntaxError`: "unexpected end of JSON input". -/
  | unexpectedEnd
  /-- `UnmarshalTypeError`: a JSON value of kind `value` cannot be stored;
  `inField` tells whether the target was the field `Text` or the whole struct. -/
  | unmarshalType (value : Bytes) (inField : Bool)
deriving DecidableEq

/-- The scanner's `step` functions. -/
inductive StepFn where
  | stateBeginValue | stateBeginValueOrEmpty | stateBeginStringOrEmpty
  | stateBeginString | stateEndValue | stateEndTop
  | stateInString | stateInStringEsc | stateInStringEscU | stateInStringEscU1
  | stateInStringEscU12 | stateInStringEscU123
  | stateNeg | state1 | state0 | stateDot | stateDot0 | stateE | stateESign | stateE0
  | stateT | stateTr | stateTru | stateF | stateFa | stateFal | stateFals
  | stateN | stateNu | stateNul | stateError
deriving DecidableEq

/-- The values of the parse-state stack. -/
inductive ParseState where
  | parseObjectKey | parseObjectValue | parseArrayValue
deriving DecidableEq

/-- The opcodes a step returns. -/
inductive Op where
  | scanContinue | scanBeginLiteral | scanBeginObject | scanObjectKey
  | scanObjectValue | scanEndObject | scanBeginArray | scanArrayValue
  | scanEndArray | scanSkipSpace | scanEnd | scanError
deriving DecidableEq

/-- The type `scanner`. -/
structure Scanner where
  step : StepFn
  endTop : Bool
  parseState : List ParseState
  err : Option JsonError
deriving DecidableEq

/-- The constant `maxNestingDepth`. -/
def maxNestingDepth : Nat := 10000

/-- The method `reset`. -/
def Scanner.reset : Scanner :=
  { step := .stateBeginValue, endTop := false, parseState := [], err := none }

/-- The method `error`: record a syntax error at byte `c`. -/
def Scanner.error (s : Scanner) (c : Nat) (context : Bytes) : Scanner × Op :=
  ({ s with step := .stateError, err := some (.invalidCharacter c context) }, .scanError)

/-- The method `pushParseState`. -/
def Scanner.pushParseState (s : Scanner) (c : Nat) (newParseState : ParseState)
    (successState : Op) : Scanner × Op :=
  let s1 := { s with parseState := newParseState :: s.parseState }
  if s1.parseState.length ≤ maxNestingDepth then (s1, successState)
  else s1.error c (str "exceeded max depth")

/-- The method `popParseState`. -/
def Scanner.popParseState (s : Scanner) : Scanner :=
  let rest := s.parseState.tail
  if rest.length = 0 then { s with parseState := rest, step := .stateEndTop, endTop := true }
  else { s with parseState := rest, step := .stateEndValue }

/-- The function `isSpace`. -/
def isSpace (c : Nat) : Bool :=
  c ≤ 0x20 && (c = 0x20 || c = 0x09 || c = 0x0D || c = 0x0A)

/-- Decimal digit. -/
def isDigit (c : Nat) : Bool := 0x30 ≤ c && c ≤ 0x39

/-- Hexadecimal digit. -/
def isHex (c : Nat) : Bool :=
  (0x30 ≤ c && c ≤ 0x39) || (0x61 ≤ c && c ≤ 0x66) || (0x41 ≤ c && c ≤ 0x46)

/-- The function `stateEndTop`: only space may follow the top-level value.
It returns `scanEnd` even when it records an error. -/
def stateEndTop (s : Scanner) (c : Nat) : Scanner × Op :=
  if !isSpace c then ((s.error c (str "after top-level value")).1, .scanEnd)
  else (s, .scanEnd)

/-- The function `stateEndValue`: the byte after a completed value. -/
def stateEndValue (s : Scanner) (c : Nat) : Scanner × Op :=
  match s.parseState with
  | [] => stateEndTop { s with step := .stateEndTop, endTop := true } c
  | ps :: rest =>
    if isSpace c then ({ s with step := .stateEndValue }, .scanSkipSpace)
    else match ps with
      | .parseObjectKey =>
        if c = 0x3A then
          ({ s with parseState := .parseObjectValue :: rest, step := .stateBeginValue },
            .scanObjectKey)
        else s.error c (str "after object key")
      | .parseObjectValue =>
        if c = 0x2C then
          ({ s with parseState := .parseObjectKey :: rest, step := .stateBeginString },
            .scanObjectValue)
        else if c = 0x7D then (s.popParseState, .scanEndObject)
        else s.error c (str "after object key:value pair")
      | .parseArrayValue =>
        if c = 0x2C then ({ s with step := .stateBeginValue }, .scanArrayValue)
        else if c = 0x5D then (s.popParseState, .scanEndArray)
        else s.error c (str "after array element")

/-- The function `stateBeginValue`: the first byte of a value. -/
def stateBeginValue (s : Scanner) (c : Nat) : Scanner × Op :=
  if isSpace c then (s, .scanSkipSpace)
  else if c = 0x7B then
    { s with step := .stateBeginStringOrEmpty }.pushParseState c .parseObjectKey .scanBeginObject
  else if c = 0x5B then
    { s with step := .stateBeginValueOrEmpty }.pushParseState c .parseArrayValue .scanBeginArray
  else if c = 0x22 then ({ s with step := .stateInString }, .scanBeginLiteral)
  else if c = 0x2D then ({ s with step := .stateNeg }, .scanBeginLiteral)
  else if c = 0x30 then ({ s with step := .state0 }, .scanBeginLiteral)
  else if c = 0x74 then ({ s with step := .stateT }, .scanBeginLiteral)
  else if c = 0x66 then ({ s with step := .stateF }, .scanBeginLiteral)
  else if c = 0x6E then ({ s with step := .stateN }, .scanBeginLiteral)
  else if 0x31 ≤ c ∧ c ≤ 0x39 then ({ s with step := .state1 }, .scanBeginLiteral)
  else s.error c (str "looking for beginning of value")

/-- The function `stateBeginValueOrEmpty`: after `[`. -/
def stateBeginValueOrEmpty (s : Scanner) (c : Nat) : Scanner × Op :=
  if isSpace c then (s, .scanSkipSpace)
  else if c = 0x5D then stateEndValue s c
  else stateBeginValue s c

/-- The function `stateBeginString`: after `,` in an object. -/
def stateBeginString (s : Scanner) (c : Nat) : Scanner × Op :=
  if isSpace c then (s, .scanSkipSpace)
  else if c = 0x22 then ({ s with step := .stateInString }, .scanBeginLiteral)
  else s.error c (str "looking for beginning of object key string")

/-- The function `stateBeginStringOrEmpty`: after `\x7b`. -/
def stateBeginStringOrEmpty (s : Scanner) (c : Nat) : Scanner × Op :=
  if isSpace c then (s, .scanSkipSpace)
  else if c = 0x7D then
    stateEndValue { s with parseState := .parseObjectValue :: s.parseState.tail } c
  else stateBeginString s c

/-- The function `stateInString`. -/
def stateInString (s : Scanner) (c : Nat) : Scanner × Op :=
  if c = 0x22 then ({ s with step := .stateEndValue }, .scanContinue)
  else if c = 0x5C then ({ s with step := .stateInStringEsc }, .scanContinue)
  else if c < 0x20 then s.error c (str "in string literal")
  else (s, .scanContinue)

/-- The function `stateInStringEsc`: after a backslash in a string. -/
def stateInStringEsc (s : Scanner) (c : Nat) : Scanner × Op :=
  if c = 0x62 ∨ c = 0x66 ∨ c = 0x6E ∨ c = 0x72 ∨ c = 0x74 ∨ c = 0x5C ∨ c = 0x2F ∨ c = 0x22 then
    ({ s with step := .stateInString }, .scanContinue)
  else if c = 0x75 then ({ s with step := .stateInStringEscU }, .scanContinue)
  else s.error c (str "in string escape code")

/-- The functions `stateInStringEscU`, `...U1`, `...U12`, `...U123`: one
hexadecimal digit each, then `next`. -/
def stateInStringEscHex (next : StepFn) (s : Scanner) (c : Nat) : Scanner × Op :=
  if isHex c then ({ s with step := next }, .scanContinue)
  else s.error c (str "in \\u hexadecimal character escape")

/-- The function `state0`: after `0` or after the integer part. -/
def state0 (s : Scanner) (c : Nat) : Scanner × Op :=
  if c = 0x2E then ({ s with step := .stateDot }, .scanContinue)
  else if c = 0x65 ∨ c = 0x45 then ({ s with step := .stateE }, .scanContinue)
  else stateEndValue s c

/-- The function `state1`: in the integer part. -/
def state1 (s : Scanner) (c : Nat) : Scanner × Op :=
  if isDigit c then ({ s with step := .state1 }, .scanContinue)
  else state0 s c

/-- The function `stateNeg`: after `-`. -/
def stateNeg (s : Scanner) (c : Nat) : Scanner × Op :=
  if c = 0x30 then ({ s with step := .state0 }, .scanContinue)
  else if 0x31 ≤ c ∧ c ≤ 0x39 then ({ s with step := .state1 }, .scanContinue)
  else s.error c (str "in numeric literal")

/-- The function `stateDot`: after the decimal point. -/
def stateDot (s : Scanner) (c : Nat) : Scanner × Op :=
  if isDigit c then ({ s with step := .stateDot0 }, .scanContinue)
  else s.error c (str "after decimal point in numeric literal")

/-- The function `stateDot0`: in the fraction. -/
def stateDot0 (s : Scanner) (c : Nat) : Scanner × Op :=
  if isDigit c then (s, .scanContinue)
  else if c = 0x65 ∨ c = 0x45 then ({ s with step := .stateE }, .scanContinue)
  else stateEndValue s c

/-- The function `stateESign`: after the exponent's sign. -/
def stateESign (s : Scanner) (c : Nat) : Scanner × Op :=
  if isDigit c then ({ s with step := .stateE0 }, .scanContinue)
  else s.error c (str "in exponent of numeric literal")

/-- The function `stateE`: after `e` or `E`. -/
def stateE (s : Scanner) (c : Nat) : Scanner × Op :=
  if c = 0x2B ∨ c = 0x2D then ({ s with step := .stateESign }, .scanContinue)
  else stateESign s c

/-- The function `stateE0`: in the exponent. -/
def stateE0 (s : Scanner) (c : Nat) : Scanner × Op :=
  if isDigit c then (s, .scanContinue)
  else stateEndValue s c

/-- The functions `stateT` ... `stateNul`: the next letter of `true`, `false`
or `null` must be `want`. -/
def stateLetter (want : Nat) (next : StepFn) (context : Bytes) (s : Scanner) (c : Nat) :
    Scanner × Op :=
  if c = want then ({ s with step := next }, .scanContinue)
  else s.error c context

/-- The call `s.step(s, c)`. -/
def Scanner.run (s : Scanner) (c : Nat) : Scanner × Op :=
  match s.step with
  | .stateBeginValue => stateBeginValue s c
  | .stateBeginValueOrEmpty => stateBeginValueOrEmpty s c
  | .stateBeginStringOrEmpty => stateBeginStringOrEmpty s c
  | .stateBeginString => stateBeginString s c
  | .stateEndValue => stateEndValue s c
  | .stateEndTop => stateEndTop s c
  | .stateInString => stateInString s c
  | .stateInStringEsc => stateInStringEsc s c
  | .stateInStringEscU => stateInStringEscHex .stateInStringEscU1 s c
  | .stateInStringEscU1 => stateInStringEscHex .stateInStringEscU12 s c
  | .stateInStringEscU12 => stateInStringEscHex .stateInStringEscU123 s c
  | .stateInStringEscU123 => stateInStringEscHex .stateInString s c
  | .stateNeg => stateNeg s c
  | .state1 => state1 s c
  | .state0 => state0 s c
  | .stateDot => stateDot s c
  | .stateDot0 => stateDot0 s c
  | .stateE => stateE s c
  | .stateESign => stateESign s c
  | .stateE0 => stateE0 s c
  | .stateT => stateLetter 0x72 .stateTr (str "in literal true (expecting 'r')") s c
  | .stateTr => stateLetter 0x75 .stateTru (str "in literal true (expecting 'u')") s c
  | .stateTru => stateLetter 0x65 .stateEndValue (str "in literal true (expecting 'e')") s c
  | .stateF => stateLetter 0x61 .stateFa (str "in literal false (expecting 'a')") s c
  | .stateFa => stateLetter 0x6C .stateFal (str "in literal false (expecting 'l')") s c
  | .stateFal => stateLetter 0x73 .stateFals (str "in literal false (expecting 's')") s c
  | .stateFals => stateLetter 0x65 .stateEndValue (str "in literal false (expecting 'e')") s c
  | .stateN => stateLetter 0x75 .stateNu (str "in literal null (expecting 'u')") s c
  | .stateNu => stateLetter 0x6C .stateNul (str "in literal null (expecting 'l')") s c
  | .stateNul => stateLetter 0x6C .stateEndValue (str "in literal null (expecting 'l')") s c
  | .stateError => (s, .scanError)

/-- The method `eof`: the input is complete when the top-level value has
ended, possibly after one more space has been fed to end a number. -/
def Scanner.eof (s : Scanner) : Scanner × Op :=
  if s.err.isSome then (s, .scanError)
  else if s.endTop then (s, .scanEnd)
  else
    let s1 := (s.run 0x20).1
    if s1.endTop then (s1, .scanEnd)
    else if s1.err.isNone then ({ s1 with err := some .unexpectedEnd }, .scanError)
    else (s1, .scanError)

/-- The function `checkValid`, from a given scanner state on. -/
def checkValidFrom : Scanner → Bytes → Option JsonError
  | s, [] => if s.eof.2 = .scanError then s.eof.1.err else none
  | s, c :: rest =>
    if (s.run c).2 = .scanError then (s.run c).1.err else checkValidFrom (s.run c).1 rest

/-- The function `checkValid`: `none` when `data` is one well-formed JSON
value, possibly surrounded by space. -/
def checkValid (data : Bytes) : Option JsonError :=
  checkValidFrom Scanner.reset data

/-! ## `encoding/json`: string literals -/

/-- The constant `utf8.RuneError`, also `unicode.ReplacementChar`. -/
def RuneError : Nat := 0xFFFD

/-- The table `first` of `unicode/utf8` for a leading byte at or above 0x80:
the length of the sequence and the accepted range of the second byte;
`none` for a byte that cannot start a sequence. -/
def first (p0 : Nat) : Option (Nat × Nat × Nat) :=
  if 0xC2 ≤ p0 ∧ p0 ≤ 0xDF then some (2, 0x80, 0xBF)
  else if p0 = 0xE0 then some (3, 0xA0, 0xBF)
  else if 0xE1 ≤ p0 ∧ p0 ≤ 0xEC then some (3, 0x80, 0xBF)
  else if p0 = 0xED then some (3, 0x80, 0x9F)
  else if 0xEE ≤ p0 ∧ p0 ≤ 0xEF then some (3, 0x80, 0xBF)
  else if p0 = 0xF0 then some (4, 0x90, 0xBF)
  else if 0xF1 ≤ p0 ∧ p0 ≤ 0xF3 then some (4, 0x80, 0xBF)
  else if p0 = 0xF4 then some (4, 0x80, 0x8F)
  else none

/-- Port of `utf8.DecodeRune`: the code point at the start of `p` and the
number of bytes it takes; `(RuneError, 1)` for an invalid sequence. -/
def DecodeRune (p : Bytes) : Nat × Nat :=
  match p with
  | [] => (RuneError, 0)
  | p0 :: _ =>
    if p0 < 0x80 then (p0, 1)
    else match first p0 with
      | none => (RuneError, 1)
      | some (sz, lo, hi) =>
        let b1 := p.getD 1 0
        let b2 := p.getD 2 0
        let b3 := p.getD 3 0
        if p.length < sz then (RuneError, 1)
        else if b1 < lo ∨ hi < b1 then (RuneError, 1)
        else if sz ≤ 2 then (p0 % 32 * 64 + b1 % 64, 2)
        else if b2 < 0x80 ∨ 0xBF < b2 then (RuneError, 1)
        else if sz ≤ 3 then (p0 % 16 * 4096 + b1 % 64 * 64 + b2 % 64, 3)
        else if b3 < 0x80 ∨ 0xBF < b3 then (RuneError, 1)
        else (p0 % 8 * 262144 + b1 % 64 * 4096 + b2 % 64 * 64 + b3 % 64, 4)

/-- The value of a hexadecimal digit. -/
def hexValue (c : Nat) : Option Nat :=
  if 0x30 ≤ c ∧ c ≤ 0x39 then some (c - 0x30)
  else if 0x61 ≤ c ∧ c ≤ 0x66 then some (c - 0x61 + 10)
  else if 0x41 ≤ c ∧ c ≤ 0x46 then some (c - 0x41 + 10)
  else none

/-- The function `getu4`: the code unit of a `\uXXXX` escape at the start of
`s`; `none` stands for Go's `-1`. -/
def getu4 (s : Bytes) : Option Nat :=
  match s with
  | 0x5C :: 0x75 :: a :: b :: c :: d :: _ =>
    match hexValue a, hexValue b, hexValue c, hexValue d with
    | some x, some y, some z, some w => some (((x * 16 + y) * 16 + z) * 16 + w)
    | _, _, _, _ => none
  | _ => none

/-- The function `utf16.IsSurrogate`. -/
def IsSurrogate (r : Nat) : Bool := 0xD800 ≤ r && r < 0xE000

/-- The function `utf16.DecodeRune`, with `none` for a second unit `-1`. -/
def utf16DecodeRune (r1 : Nat) (r2 : Option Nat) : Nat :=
  match r2 with
  | some r2 =>
    if 0xD800 ≤ r1 ∧ r1 < 0xDC00 ∧ 0xDC00 ≤ r2 ∧ r2 < 0xE000 then
      (r1 - 0xD800) * 1024 + (r2 - 0xDC00) + 0x10000
    else RuneError
  | none => RuneError

/-- The first loop of `unquoteBytes`: whether the text between the quotes has
no backslash, quote, control character or invalid UTF-8, so that it is its
own value.  `skip` counts the bytes of a multi-byte sequence still to pass. -/
def isPlain : Nat → Bytes → Bool
  | _, [] => true
  | skip + 1, _ :: rest => isPlain skip rest
  | 0, c :: rest =>
    if c = 0x5C ∨ c = 0x22 ∨ c < 0x20 then false
    else if c < 0x80 then isPlain 0 rest
    else if DecodeRune (c :: rest) = (RuneError, 1) then false
    else isPlain ((DecodeRune (c :: rest)).2 - 1) rest

/-- The second loop of `unquoteBytes`: decode escapes and coerce to
well-formed UTF-8, appending to `out`.  `skip` counts the bytes already
decoded that are still to pass; `none` is Go's `ok == false`. -/
def unquoteLoop : Nat → Bytes → Bytes → Option Bytes
  | _, [], out => some out
  | skip + 1, _ :: rest, out => unquoteLoop skip rest out
  | 0, c :: rest, out =>
    if c = 0x5C then
      match rest with
      | [] => none
      | e :: _ =>
        if e = 0x22 ∨ e = 0x5C ∨ e = 0x2F ∨ e = 0x27 then unquoteLoop 1 rest (out ++ [e])
        else if e = 0x62 then unquoteLoop 1 rest (out ++ [0x08])
        else if e = 0x66 then unquoteLoop 1 rest (out ++ [0x0C])
        else if e = 0x6E then unquoteLoop 1 rest (out ++ [0x0A])
        else if e = 0x72 then unquoteLoop 1 rest (out ++ [0x0D])
        else if e = 0x74 then unquoteLoop 1 rest (out ++ [0x09])
        else if e = 0x75 then
          match getu4 (c :: rest) with
          | none => none
          | some rr =>
            if IsSurrogate rr then
              if utf16DecodeRune rr (getu4 (rest.drop 5)) ≠ RuneError then
                unquoteLoop 11 rest (out ++ EncodeRune (utf16DecodeRune rr (getu4 (rest.drop 5))))
              else unquoteLoop 5 rest (out ++ EncodeRune RuneError)
            else unquoteLoop 5 rest (out ++ EncodeRune rr)
        else none
    else if c = 0x22 ∨ c < 0x20 then none
    else if c < 0x80 then unquoteLoop 0 rest (out ++ [c])
    else
      unquoteLoop ((DecodeRune (c :: rest)).2 - 1) rest (out ++ EncodeRune (DecodeRune (c :: rest)).1)

/-- The function `unquoteBytes`: the value of a quoted string literal. -/
def unquoteBytes (s : Bytes) : Option Bytes :=
  if s.length < 2 ∨ s.head? ≠ some 0x22 ∨ s.getLast? ≠ some 0x22 then none
  else
    let inner := (s.drop 1).dropLast
    if isPlain 0 inner then some inner else unquoteLoop 0 inner []

/-! ## `encoding/json`: decoding into `*Transcript`

`json.Unmarshal` first runs `checkValid` and then walks the input a second
time with the same scanner, storing what it meets.  For the target type of
this program only the top-level value and, when that is an object, its
members matter: the contents of nested arrays and objects are skipped. -/

/-- The struct `Transcript` of `main.go`; its field has the JSON name `text`. -/
structure Transcript where
  Text : Bytes
deriving DecidableEq

/-- A JSON value as the decoder sees it: its kind, the text of a string, and
for an object a content of type `α`. -/
inductive Value (α : Type) where
  | null
  | bool
  | number
  | string (s : Bytes)
  | array
  | object (content : α)
deriving DecidableEq

/-- The value of an object member: nested objects are skipped, so they carry
no content. -/
abbrev Member := Value Unit

/-- The top-level value: an object carries its members, key and value, in the
order of the input. -/
abbrev Document := Value (List (Bytes × Member))

/-- What a literal being read is for. -/
inductive Role where
  | top | key | member
deriving DecidableEq

/-- The decoder's view of the input read so far. -/
structure Collector where
  /-- The literal being read, with the bytes read so far. -/
  lit : Option (Role × Bytes)
  /-- The kind of the top-level value, once it has begun. -/
  top : Option (Value Unit)
  /-- The key of the member being read. -/
  key : Option Bytes
  /-- The members of the top-level object read so far. -/
  members : List (Bytes × Member)
  /-- Set when the decoder meets what `checkValid` excludes; Go panics with
  "JSON decoder out of sync". -/
  outOfSync : Bool
deriving DecidableEq

/-- The decoder before the first byte. -/
def Collector.init : Collector :=
  { lit := none, top := none, key := none, members := [], outOfSync := false }

/-- The kind and text of a literal, by its first byte as in `literalStore`. -/
def literalValue (item : Bytes) : Option (Value Unit) :=
  match item with
  | [] => none
  | c :: _ =>
    if c = 0x6E then some .null
    else if c = 0x74 ∨ c = 0x66 then some .bool
    else if c = 0x22 then (unquoteBytes item).map .string
    else if c = 0x2D ∨ (0x30 ≤ c ∧ c ≤ 0x39) then some .number
    else none

/-- Record the value `v` of the member whose key was read last. -/
def Collector.addMember (k : Collector) (v : Member) : Collector :=
  match k.key with
  | some name => { k with members := k.members ++ [(name, v)], key := none }
  | none => { k with outOfSync := true }

/-- The literal being read, if any, is complete: record it. -/
def Collector.closeLiteral (k : Collector) : Collector :=
  match k.lit with
  | none => k
  | some (.key, item) =>
    match unquoteBytes item with
    | some name => { k with lit := none, key := some name }
    | none => { k with lit := none, outOfSync := true }
  | some (.top, item) =>
    match literalValue item with
    | some v => { k with lit := none, top := some v }
    | none => { k with lit := none, outOfSync := true }
  | some (.member, item) =>
    match literalValue item with
    | some v => { k with lit := none }.addMember v
    | none => { k with lit := none, outOfSync := true }

/-- A literal begins with byte `c` while the parse-state stack is `ps`: it is
the top-level value, a key or a member value of the top-level object, or
lies deeper and is skipped. -/
def Collector.beginLiteral (k : Collector) (ps : List ParseState) (c : Nat) : Collector :=
  match ps with
  | [] => { k with lit := some (.top, [c]) }
  | [.parseObjectKey] => { k with lit := some (.key, [c]) }
  | [.parseObjectValue] => { k with lit := some (.member, [c]) }
  | _ => k

/-- An array or object of kind `v` begins while the parse-state stack is `ps`. -/
def Collector.beginComposite (k : Collector) (ps : List ParseState) (v : Value Unit) :
    Collector :=
  match ps with
  | [] => { k with top := some v }
  | [.parseObjectValue] => k.addMember v
  | _ => k

/-- The decoder reads byte `c`, for which the scanner, with parse-state stack
`ps`, returned `op`. -/
def Collector.feed (k : Collector) (ps : List ParseState) (c : Nat) (op : Op) : Collector :=
  match op with
  | .scanContinue =>
    match k.lit with
    | some (role, item) => { k with lit := some (role, item ++ [c]) }
    | none => k
  | .scanBeginLiteral => k.closeLiteral.beginLiteral ps c
  | .scanBeginObject => k.closeLiteral.beginComposite ps (.object ())
  | .scanBeginArray => k.closeLiteral.beginComposite ps .array
  | _ => k.closeLiteral

/-- Run scanner and decoder over the input. -/
def collectFrom : Scanner → Collector → Bytes → Collector
  | _, k, [] => k.closeLiteral
  | s, k, c :: rest => collectFrom (s.run c).1 (k.feed s.parseState c (s.run c).2) rest

/-- The top-level value of well-formed input; `none` when the decoder is out
of sync with the scanner. -/
def document (data : Bytes) : Option Document :=
  let k := collectFrom Scanner.reset Collector.init data
  if k.outOfSync then none
  else match k.top with
    | some .null => some .null
    | some .bool => some .bool
    | some .number => some .number
    | some (.string s) => some (.string s)
    | some .array => some .array
    | some (.object _) => if k.key.isSome then none else some (.object k.members)
    | none => none

/-- Case folding of an ASCII letter to upper case, as in `foldName`. -/
def foldByte (c : Nat) : Nat :=
  if 0x61 ≤ c ∧ c ≤ 0x7A then c - 0x20 else c

/-- The field lookup of `object`, exact name first and then the
case-insensitive search: whether a key selects the field `Text`.  For the
name `text` folding concerns ASCII letters only. -/
def matchesText (key : Bytes) : Bool :=
  key = str "text" || key.map foldByte = (str "text").map foldByte

/-- Store a member value into the field `Text` (`literalStore`, `array`,
`object` on a value of kind string): a string is stored, `null` has no
effect, anything else is an `UnmarshalTypeError`. -/
def storeText (t : Transcript) : Member → Transcript × Option JsonError
  | .string s => ({ t with Text := s }, none)
  | .null => (t, none)
  | .bool => (t, some (.unmarshalType (str "bool") true))
  | .number => (t, some (.unmarshalType (str "number") true))
  | .array => (t, some (.unmarshalType (str "array") true))
  | .object _ => (t, some (.unmarshalType (str "object") true))

/-- The method `saveError`: the first error is kept. -/
def saveError (saved : Option JsonError) (err : Option JsonError) : Option JsonError :=
  match saved with
  | some e => some e
  | none => err

/-- The loop of `object` on a struct: members are taken in order; one whose
key selects no field is skipped. -/
def decodeMembers : List (Bytes × Member) → Transcript → Option JsonError →
    Transcript × Option JsonError
  | [], t, saved => (t, saved)
  | (key, v) :: rest, t, saved =>
    if matchesText key then
      decodeMembers rest (storeText t v).1 (saveError saved (storeText t v).2)
    else decodeMembers rest t saved

/-- The method `value` on the struct: an object is decoded member by member,
`null` has no effect, anything else is an `UnmarshalTypeError`. -/
def decodeDocument (t : Transcript) : Document → Transcript × Option JsonError
  | .object members => decodeMembers members t none
  | .null => (t, none)
  | .bool => (t, some (.unmarshalType (str "bool") false))
  | .number => (t, some (.unmarshalType (str "number") false))
  | .string _ => (t, some (.unmarshalType (str "string") false))
  | .array => (t, some (.unmarshalType (str "array") false))

/-- The outcome of `json.Unmarshal(data, &transcript)`. -/
inductive Unmarshaled where
  /-- It returned `err`, leaving `transcript` in the variable. -/
  | done (transcript : Transcript) (err : Option JsonError)
  /-- It panicked with "JSON decoder out of sync". -/
  | outOfSync
deriving DecidableEq

/-- The function `json.Unmarshal` for a `*Transcript` holding `t`. -/
def Unmarshal (data : Bytes) (t : Transcript) : Unmarshaled :=
  match checkValid data with
  | some err => .done t (some err)
  | none =>
    match document data with
    | none => .outOfSync
    | some doc => .done (decodeDocument t doc).1 (decodeDocument t doc).2

/-! ## The outside world and effects -/

/-- A header map (`textproto.MIMEHeader`, `http.Header`) with one value a key. -/
abbrev Header := List (Bytes × Bytes)

/-- The type `http.Request`, as far as the program sets it. -/
structure Request where
  Method : Bytes
  URL : Bytes
  Header : Header
  Body : Bytes
deriving DecidableEq

/-- An open file: what reading it to the end gives. -/
structure File where
  contents : Except GoError Bytes

/-- The header `Location` of a response, as the client reads it when it
follows a redirect: absent (or empty), present but not parsable against the
URL of the request, or the URL it resolves to. -/
inductive Location where
  | absent
  | unparsable
  | target (url : Bytes)
deriving DecidableEq

/-- The type `http.Response`, as far as the program and the client read it;
`Body` is what reading the body to the end gives. -/
structure Response where
  StatusCode : Int
  Status : Bytes
  Location : Location
  Body : Except GoError Bytes

/-- A failed round trip of the transport: the error, and whether the request
had gone out when it arose (it had not when no connection was made). -/
structure Failure where
  err : GoError
  sent : Bool
deriving DecidableEq

/-- The errors the HTTP client makes itself, before or between round trips. -/
inductive ClientError where
  /-- The transport refuses a header whose name is no token. -/
  | invalidFieldName (key : Bytes)
  /-- The transport refuses a header whose value has a control byte. -/
  | invalidFieldValue (key : Bytes)
  /-- The header `Location` of a redirect does not parse. -/
  | badLocation
  /-- The default redirect policy: "stopped after 10 redirects". -/
  | tooManyRedirects
deriving DecidableEq

/-- The world a run happens in. -/
structure World where
  /-- The command line, `os.Args`. -/
  Args : List Bytes
  /-- The environment: `none` for a variable that is not set. -/
  LookupEnv : Bytes → Option Bytes
  /-- The function `os.Open`. -/
  Open : Bytes → Except GoError File
  /-- The random bytes `multipart.NewWriter` draws for the boundary. -/
  random : Bytes
  /-- One round trip of the transport for the request the program built: the
  server's answer, or a failure (the client's timeout of one minute is one). -/
  RoundTrip : Request → Except Failure Response
  /-- One round trip for a request the client makes when it follows a
  redirect: the number of the request (1 for the first follow-up), its
  method, its URL and whether it carries the body. -/
  Redirected : Nat → Bytes → Bytes → Bool → Except Failure Response
  /-- The wording of the messages of `encoding/json`. -/
  jsonErrorText : JsonError → Bytes
  /-- The wording of the errors the HTTP client makes itself. -/
  clientErrorText : ClientError → Bytes

/-- The function `os.Getenv`: empty for a variable that is not set. -/
def World.Getenv (w : World) (name : Bytes) : Bytes :=
  (w.LookupEnv name).getD []

/-- What a run does to the outside, in order. -/
inductive Event where
  | openFile (name : Bytes)
  | readFile
  | closeFile
  /-- The request the program built goes out to the server. -/
  | send (req : Request)
  /-- A request the client makes following a redirect goes out to the server:
  its method, its URL and whether it carries the body. -/
  | resend (method url : Bytes) (withBody : Bool)
  | readBody
  | closeBody
  | unmarshal (data : Bytes)
deriving DecidableEq

/-- What a run has written and done so far. -/
structure Log where
  stdout : Bytes
  events : List Event
deriving DecidableEq

/-- How a computation ends: it returns a value, the process exits by
`os.Exit`, or it panics at run time. -/
inductive Outcome (α : Type) where
  | returned (a : α)
  | exited (code : Nat)
  | panicked (msg : Bytes)
deriving DecidableEq

/-- A Go computation with effects. -/
def Proc (α : Type) : Type := Log → Outcome α × Log

/-- Sequencing: what follows runs only after a return. -/
def Proc.bind {α β : Type} (m : Proc α) (f : α → Proc β) : Proc β := fun l =>
  match m l with
  | (.returned a, l1) => f a l1
  | (.exited code, l1) => (.exited code, l1)
  | (.panicked msg, l1) => (.panicked msg, l1)

instance : Monad Proc where
  pure a := fun l => (.returned a, l)
  bind := Proc.bind

/-- Record an event. -/
def emit (e : Event) : Proc Unit := fun l =>
  (.returned (), { l with events := l.events ++ [e] })

/-- The statement `defer`: the event happens when `body` returns or panics, not
when the process exits. -/
def deferring {α : Type} (e : Event) (body : Proc α) : Proc α := fun l =>
  match body l with
  | (.exited code, l1) => (.exited code, l1)
  | (r, l1) => (r, { l1 with events := l1.events ++ [e] })

/-- The function `fmt.Println` of one string. -/
def Println (a : Bytes) : Proc Unit := fun l =>
  (.returned (), { l with stdout := l.stdout ++ a ++ str "\n" })

/-- The function `fmt.Printf`, given the formatted text. -/
def Printf (formatted : Bytes) : Proc Unit := fun l =>
  (.returned (), { l with stdout := l.stdout ++ formatted })

/-- The function `os.Exit`. -/
def Exit {α : Type} (code : Nat) : Proc α := fun l => (.exited code, l)

/-- A run-time panic. -/
def runtimePanic {α : Type} (msg : Bytes) : Proc α := fun l => (.panicked msg, l)

/-- The function `os.Open`. -/
def Open (w : World) (name : Bytes) : Proc (Except GoError File) := do
  emit (.openFile name)
  pure (w.Open name)

/-- The function `ioutil.ReadAll` on a response body. -/
def ReadAll (resp : Response) : Proc (Except GoError Bytes) := do
  emit .readBody
  pure resp.Body

/-- The exit status of the process: 0 after `main` returns, the argument of
`os.Exit`, and 2 when the Go run time ends the process for a panic. -/
def exitStatus {α : Type} : Outcome α → Nat
  | .returned _ => 0
  | .exited code => code
  | .panicked _ => 2

/-- The requests of the program's own making sent among the events. -/
def sentRequests : List Event → List Request
  | [] => []
  | .send req :: rest => req :: sentRequests rest
  | _ :: rest => sentRequests rest

/-- The number of requests that went out among the events: those the program
built and those the client added following redirects. -/
def outboundRequests : List Event → Nat
  | [] => 0
  | .send _ :: rest => outboundRequests rest + 1
  | .resend _ _ _ :: rest => outboundRequests rest + 1
  | _ :: rest => outboundRequests rest

/-! ## Library functions the program calls -/

/-- The function `filepath.Base` on a system whose separator is `/`: the last
element of the path, after trailing separators are removed; `.` for the
empty path and `/` for one of separators only. -/
def Base (path : Bytes) : Bytes :=
  if path = [] then str "."
  else
    let stripped := (path.reverse.dropWhile (fun c => c = 0x2F)).reverse
    let last := (stripped.reverse.takeWhile (fun c => c ≠ 0x2F)).reverse
    if last = [] then str "/" else last

/-- Whether a byte may stand in a header field name (`validHeaderFieldByte`):
a token character of RFC 7230. -/
def validHeaderFieldByte (c : Nat) : Bool :=
  (0x30 ≤ c && c ≤ 0x39) || (0x41 ≤ c && c ≤ 0x5A) || (0x61 ≤ c && c ≤ 0x7A) ||
    (str "!#$%&*+-.^_|~").contains c || c = 0x27 || c = 0x60

/-- The letter-case loop of `canonicalMIMEHeaderKey`: upper case at the start
and after a hyphen, lower case elsewhere. -/
def canonicalCase : Bool → Bytes → Bytes
  | _, [] => []
  | upper, c :: rest =>
    let c1 :=
      if upper ∧ 0x61 ≤ c ∧ c ≤ 0x7A then c - 0x20
      else if ¬ upper ∧ 0x41 ≤ c ∧ c ≤ 0x5A then c + 0x20
      else c
    c1 :: canonicalCase (c = 0x2D) rest

/-- The function `textproto.CanonicalMIMEHeaderKey`: a key with a byte that
is no token character is left as it is. -/
def CanonicalMIMEHeaderKey (key : Bytes) : Bytes :=
  if key.all validHeaderFieldByte then canonicalCase true key else key

/-- The method `Set` of a header map: the value of the canonical key is
replaced. -/
def Header.Set (h : Header) (key value : Bytes) : Header :=
  h.filter (fun kv => kv.1 ≠ CanonicalMIMEHeaderKey key) ++ [(CanonicalMIMEHeaderKey key, value)]

/-- The method `Get` of a header map. -/
def Header.Get (h : Header) (key : Bytes) : Option Bytes :=
  (h.find? (fun kv => kv.1 = CanonicalMIMEHeaderKey key)).map (fun kv => kv.2)

/-- Byte-wise order of strings, as `sort.Strings` uses it. -/
def bytesLe : Bytes → Bytes → Bool
  | [], _ => true
  | _ :: _, [] => false
  | a :: as, b :: bs => a < b || (a = b && bytesLe as bs)

/-- Insert an entry into a list of entries sorted by key. -/
def insertByKey (kv : Bytes × Bytes) : Header → Header
  | [] => [kv]
  | x :: rest => if bytesLe kv.1 x.1 then kv :: x :: rest else x :: insertByKey kv rest

/-- The entries of a header map with the keys in sorted order. -/
def sortedByKey (h : Header) : Header :=
  h.foldr insertByKey []

/-- The type `multipart.Writer` on a `bytes.Buffer`: the buffer's content, the
boundary, and whether a part has been created. -/
structure Writer where
  b : Bytes
  boundary : Bytes
  lastpart : Bool
deriving DecidableEq

/-- A hexadecimal digit in lower case, as the verb `%x` writes it. -/
def hexDigit (n : Nat) : Nat :=
  if n < 10 then 0x30 + n else 0x57 + n

/-- The function `randomBoundary`: thirty random bytes written with `%x`, two
digits a byte. -/
def World.boundary (w : World) : Bytes :=
  (List.range 30).flatMap
    (fun i => [hexDigit (w.random.getD i 0 % 256 / 16), hexDigit (w.random.getD i 0 % 16)])

/-- The function `multipart.NewWriter` on an empty buffer, with the boundary
drawn. -/
def NewWriter (boundary : Bytes) : Writer :=
  { b := [], boundary := boundary, lastpart := false }

/-- The method `CreatePart`: the boundary line, after a line break when a
part precedes, the header lines with the keys sorted, and an empty line.
Writing to a `bytes.Buffer` does not fail. -/
def Writer.CreatePart (w : Writer) (header : Header) : Except GoError Writer :=
  let delimiter :=
    if w.lastpart then str "\r\n--" ++ w.boundary ++ str "\r\n"
    else str "--" ++ w.boundary ++ str "\r\n"
  let lines := (sortedByKey header).flatMap (fun kv => kv.1 ++ str ": " ++ kv.2 ++ str "\r\n")
  .ok { w with b := w.b ++ delimiter ++ lines ++ str "\r\n", lastpart := true }

/-- Writing to the current part: the bytes go to the buffer. -/
def Writer.Write (w : Writer) (p : Bytes) : Except GoError Writer :=
  .ok { w with b := w.b ++ p }

/-- The function `escapeQuotes` of `mime/multipart`: a backslash before each
backslash and double quote. -/
def escapeQuotes (s : Bytes) : Bytes :=
  s.flatMap (fun c => if c = 0x5C ∨ c = 0x22 then [0x5C, c] else [c])

/-- The method `WriteField`: a part with the header `CreateFormField` makes,
and the value as its content. -/
def Writer.WriteField (w : Writer) (fieldname value : Bytes) : Except GoError Writer :=
  match w.CreatePart (Header.Set [] (str "Content-Disposition")
      (str "form-data; name=\"" ++ escapeQuotes fieldname ++ str "\"")) with
  | .error err => .error err
  | .ok w1 => w1.Write value

/-- The method `Close`: the closing boundary line. -/
def Writer.Close (w : Writer) : Except GoError Writer :=
  .ok { w with b := w.b ++ str "\r\n--" ++ w.boundary ++ str "--\r\n", lastpart := false }

/-- The method `FormDataContentType`: the boundary is quoted when it has a
special character of RFC 2045 or a space. -/
def Writer.FormDataContentType (w : Writer) : Bytes :=
  if w.boundary.any (fun c => (str "()<>@,;:\\\"/[]?= ").contains c) then
    str "multipart/form-data; boundary=\"" ++ w.boundary ++ str "\""
  else str "multipart/form-data; boundary=" ++ w.boundary

/-- The function `io.Copy` from the open file into the current part. -/
def Copy (w : Writer) (file : File) : Proc (Except GoError Writer) := do
  emit .readFile
  match file.contents with
  | .error err => pure (.error err)
  | .ok data => pure (w.Write data)

/-- The function `http.NewRequest` with a body read from a buffer: an empty
method stands for `GET`, and the method must be a token.  Parsing the URL is
not modelled; the program passes the constant `transcriptionURL`, which
parses. -/
def NewRequest (method url body : Bytes) : Except GoError Request :=
  let method := if method = [] then str "GET" else method
  if method.all validHeaderFieldByte then
    .ok { Method := method, URL := url, Header := [], Body := body }
  else .error (.errorf (str "net/http: invalid method \"" ++ method ++ str "\""))

/-- The function `httpguts.ValidHeaderFieldName`: a token, not empty. -/
def ValidHeaderFieldName (key : Bytes) : Bool :=
  key ≠ [] && key.all validHeaderFieldByte

/-- The function `httpguts.ValidHeaderFieldValue`: no control byte (below
0x20, or 0x7F) other than the tab. -/
def ValidHeaderFieldValue (v : Bytes) : Bool :=
  v.all (fun b => !((b < 0x20 || b = 0x7F) && !(b = 0x20 || b = 0x09)))

/-- The function `validateHeaders` of the transport: the first header it
refuses, if any. -/
def validateHeaders : Header → Option ClientError
  | [] => none
  | (key, v) :: rest =>
    if !ValidHeaderFieldName key then some (.invalidFieldName key)
    else if !ValidHeaderFieldValue v then some (.invalidFieldValue key)
    else validateHeaders rest

/-- The function `redirectBehavior` for a first request that has `GetBody`
(its body is a buffer): for the method of the request just answered and the
answer, the method of the follow-up request and whether it carries the body;
`none` when the answer is final.  After 301, 302 and 303 a method other than
GET and HEAD becomes GET and the body is dropped; after 307 and 308 method
and body are kept. -/
def redirectBehavior (reqMethod : Bytes) (resp : Response) : Option (Bytes × Bool) :=
  if resp.StatusCode = 301 ∨ resp.StatusCode = 302 ∨ resp.StatusCode = 303 then
    some (if reqMethod ≠ str "GET" ∧ reqMethod ≠ str "HEAD" then str "GET" else reqMethod, false)
  else if resp.StatusCode = 307 ∨ resp.StatusCode = 308 then some (reqMethod, true)
  else none

/-- The redirect loop of `Client.do` after an answer `resp` to a request of
method `method`: the follow-up requests that go out, and the result.  A
redirect without `Location` is the final answer; `allowed` is the number of
follow-ups the default policy still admits, and `hop` numbers the next one.
The headers of a follow-up request are not modelled. -/
def followRedirects (w : World) : Nat → Nat → Bytes → Response →
    List Event × Except GoError Response
  | 0, _, method, resp =>
    match redirectBehavior method resp, resp.Location with
    | none, _ => ([], .ok resp)
    | some _, .absent => ([], .ok resp)
    | some _, .unparsable => ([], .error (.foreign (w.clientErrorText .badLocation)))
    | some _, .target _ => ([], .error (.foreign (w.clientErrorText .tooManyRedirects)))
  | allowed + 1, hop, method, resp =>
    match redirectBehavior method resp, resp.Location with
    | none, _ => ([], .ok resp)
    | some _, .absent => ([], .ok resp)
    | some _, .unparsable => ([], .error (.foreign (w.clientErrorText .badLocation)))
    | some (next, withBody), .target url =>
      match w.Redirected hop next url withBody with
      | .error f => (if f.sent then [.resend next url withBody] else [], .error f.err)
      | .ok answer =>
        (.resend next url withBody :: (followRedirects w allowed (hop + 1) next answer).1,
          (followRedirects w allowed (hop + 1) next answer).2)

/-- The method `Do` of an `http.Client` with the default redirect policy, as
a function: the requests that go out, and the result.  The transport
validates the headers before it sends anything; a request whose round trip
fails counts as gone out only when the failure says so; the default policy
stops at the tenth request. -/
def clientDo (w : World) (req : Request) : List Event × Except GoError Response :=
  match validateHeaders req.Header with
  | some e => ([], .error (.foreign (w.clientErrorText e)))
  | none =>
    match w.RoundTrip req with
    | .error f => (if f.sent then [.send req] else [], .error f.err)
    | .ok resp =>
      (.send req :: (followRedirects w 9 1 req.Method resp).1,
        (followRedirects w 9 1 req.Method resp).2)

/-- The method `Do` of the client, with its effects. -/
def Do (w : World) (req : Request) : Proc (Except GoError Response) := fun l =>
  (.returned (clientDo w req).2, { l with events := l.events ++ (clientDo w req).1 })

/-! ## The program -/

/-- The constant `transcriptionURL`. -/
def transcriptionURL : Bytes := str "https://api.openai.com/v1/audio/transcriptions"

/-- The constant `http.StatusOK`. -/
def StatusOK : Int := 200

/-- The function `transcribeAudio` of `main.go`.  The result is the pair of
the pointer (`none` is `nil`) and the error (`none` is `nil`). -/
def transcribeAudio (w : World) (audioFile : Bytes) : Proc (Option Transcript × Option GoError) := do
  let openaiAPIKey := w.Getenv (str "OPENAI_API_KEY")
  if openaiAPIKey = [] then
    Println (str "Error: Required OPENAI_API_KEY")
    Exit 1
  match ← Open w audioFile with
  | .error err => pure (none, some (Errorf_w (str "Error: Failed to open audio file: ") err))
  | .ok file =>
  deferring .closeFile do
  let writer := NewWriter w.boundary
  let partHeader : Header := []
  let partHeader := partHeader.Set (str "Content-Disposition")
    (str "form-data; name=\"file\"; filename=\"" ++ Base audioFile ++ str "\"")
  let partHeader := partHeader.Set (str "Content-Type") (str "videp/mp4")
  match writer.CreatePart partHeader with
  | .error err => pure (none, some (Errorf_w (str "Error: Failed to create form part: ") err))
  | .ok writer =>
  match ← Copy writer file with
  | .error err =>
    pure (none, some (Errorf_w (str "Error: Failed to copy file into form part: ") err))
  | .ok writer =>
  match writer.WriteField (str "model") (str "whisper-1") with
  | .error err => pure (none, some (Errorf_w (str "Error: Failed to write model field: ") err))
  | .ok writer =>
  match writer.Close with
  | .error err => pure (none, some (Errorf_w (str "Error: Failed to close writer: ") err))
  | .ok writer =>
  match NewRequest (str "POST") transcriptionURL writer.b with
  | .error err => pure (none, some (Errorf_w (str "Error: Failed to create request: ") err))
  | .ok req =>
  let req := { req with Header := req.Header.Set (str "Content-Type") writer.FormDataContentType }
  let req := { req with Header := req.Header.Set (str "Authorization") (str "Bearer " ++ openaiAPIKey) }
  match ← Do w req with
  | .error err => pure (none, some (Errorf_w (str "Error: Failed to send request: ") err))
  | .ok resp =>
  deferring .closeBody do
  if resp.StatusCode ≠ StatusOK then
    pure (none, some (.errorf (str "Error: Non-200 response: " ++ decimal resp.StatusCode ++
      str " " ++ resp.Status)))
  else
  match ← ReadAll resp with
  | .error err => pure (none, some (Errorf_w (str "Error: Failed to read response body: ") err))
  | .ok body =>
  let transcript : Transcript := { Text := [] }
  emit (.unmarshal body)
  match Unmarshal body transcript with
  | .outOfSync => runtimePanic (str "JSON decoder out of sync - data changing underfoot?")
  | .done _ (some err) =>
    pure (none, some (Errorf_w (str "Error: Failed to unmarshal JSON: ")
      (.foreign (w.jsonErrorText err))))
  | .done transcript none => pure (some transcript, none)

/-- The function `main` of `main.go`. -/
def main (w : World) : Proc Unit := do
  if w.Args.length < 2 then
    Println (str "Error: The file to be processed must be passed as an argument.")
    Println (str "USAGE: OPENAI_API_KEY=\x7byour api key\x7d whisper-t \x7bfile\x7d")
    Exit 1
  let inputFile := w.Args.getD 1 []
  let (transcript, err) ← transcribeAudio w inputFile
  match err with
  | some err => Printf (str "Error: transcription error: " ++ err.Error ++ str "\n")
  | none => pure ()
  match transcript with
  | none => runtimePanic (str "runtime error: invalid memory address or nil pointer dereference")
  | some transcript => Println transcript.Text

/-- A run of the program from the start: nothing written, nothing done. -/
def Proc.run {α : Type} (m : Proc α) : Outcome α × Log :=
  m { stdout := [], events := [] }

/-! ## The request, stated -/

/-- One part of a multipart body: its header fields in the order written,
and its payload. -/
structure Part where
  header : Header
  payload : Bytes
deriving DecidableEq

/-- The encoding of one part after RFC 2046: the boundary line, the header
lines, an empty line, the payload and a line break. -/
def encodePart (boundary : Bytes) (p : Part) : Bytes :=
  str "--" ++ boundary ++ str "\r\n" ++
    p.header.flatMap (fun kv => kv.1 ++ str ": " ++ kv.2 ++ str "\r\n") ++
    str "\r\n" ++ p.payload ++ str "\r\n"

/-- The multipart body made of the given parts, in order, and the closing
boundary line. -/
def encodeMultipart (boundary : Bytes) (parts : List Part) : Bytes :=
  parts.flatMap (encodePart boundary) ++ str "--" ++ boundary ++ str "--\r\n"

/-- The request `transcribeAudio` builds for a file named `audioFile` with
contents `c`, credential `k` and multipart boundary `boundary`. -/
def uploadRequest (boundary audioFile k c : Bytes) : Request :=
  { Method := str "POST"
    URL := transcriptionURL
    Header := [(str "Content-Type", (NewWriter boundary).FormDataContentType),
      (str "Authorization", str "Bearer " ++ k)]
    Body := encodeMultipart boundary
      [{ header := [(str "Content-Disposition",
            str "form-data; name=\"file\"; filename=\"" ++ Base audioFile ++ str "\""),
          (str "Content-Type", str "videp/mp4")],
         payload := c },
       { header := [(str "Content-Disposition", str "form-data; name=\"model\"")],
         payload := str "whisper-1" }] }

/-! ## Definitions for the statements -/

/-- Whether a member value can be stored into the string field `Text`: a
string or `null`. -/
def storable : Member → Bool
  | .string _ => true
  | .null => true
  | _ => false

/-- A body that `json.Unmarshal` answers with an error for a `*Transcript`:
one that the syntax check `checkValid` of `encoding/json` rejects, or one it
accepts whose value is an array, a string, a number or a boolean, or an
object with a member selecting the field `Text` whose value is neither a
string nor `null`. -/
def Undecodable (body : Bytes) : Prop :=
  checkValid body ≠ none ∨
    match document body with
    | some (.object members) => ∃ kv ∈ members, matchesText kv.1 = true ∧ storable kv.2 = false
    | some .null => False
    | some _ => True
    | none => False

/-- The request reaches the server: its round trip does not fail before the
request has gone out. -/
def Reaches (w : World) (req : Request) : Prop :=
  ∀ err, w.RoundTrip req ≠ .error { err := err, sent := false }

/-! ## Sample worlds -/

/-- A sample world with two answers: the command line names the file
`a.mp4`, the environment has `OPENAI_API_KEY=key` when `key` is given, `os.Open` finds `a.mp4` alone,
with the given reading result when `file` is given, the random bytes are
all zero, the answer to the program's request is `answer` and the answer to
every follow-up request is `follow`; an error among them is a failure to
connect, with nothing sent. -/
def twoAnswerWorld (key : Option Bytes) (file : Option (Except GoError Bytes))
    (answer : Except GoError Response) (follow : Except GoError Response) : World :=
  { Args := [str "whisper-t", str "a.mp4"]
    LookupEnv := fun name => if name = str "OPENAI_API_KEY" then key else none
    Open := fun name =>
      match file with
      | some contents =>
        if name = str "a.mp4" then .ok { contents := contents }
        else .error (.foreign (str "open " ++ name ++ str ": no such file or directory"))
      | none => .error (.foreign (str "open " ++ name ++ str ": no such file or directory"))
    random := []
    RoundTrip := fun _ =>
      match answer with
      | .ok resp => .ok resp
      | .error err => .error { err := err, sent := false }
    Redirected := fun _ _ _ _ =>
      match follow with
      | .ok resp => .ok resp
      | .error err => .error { err := err, sent := false }
    jsonErrorText := fun _ => str "json: error"
    clientErrorText := fun _ => str "net/http: error" }

/-- A sample world with one answer: no follow-up request finds a host. -/
def sampleWorld (key : Option Bytes) (file : Option (Except GoError Bytes))
    (answer : Except GoError Response) : World :=
  twoAnswerWorld key file answer (.error (.foreign (str "no such host")))

/-- A sample world in which the file `a.mp4` holds the four bytes 1, 2, 3, 4,
the credential is `k`, and the server answers with the given status and body,
without a header `Location`. -/
def answeringWorld (code : Int) (status body : Bytes) : World :=
  sampleWorld (some (str "k")) (some (.ok [1, 2, 3, 4]))
    (.ok { StatusCode := code, Status := status, Location := .absent, Body := .ok body })

/-- The boundary of the sample worlds: sixty zeros. -/
def sampleBoundary : Bytes :=
  str "000000000000000000000000000000000000000000000000000000000000"

/-- A sample world in which the file `a.mp4` holds the four bytes 1, 2, 3, 4,
the credential is `key`, the server answers the program's request with
`307 Temporary Redirect` to `https://example.org/t`, and the follow-up
request with `200 OK` and the body `{"text":"moved"}`. -/
def redirectingWorld (key : Bytes) : World :=
  twoAnswerWorld (some key) (some (.ok [1, 2, 3, 4]))
    (.ok { StatusCode := 307, Status := str "307 Temporary Redirect",
           Location := .target (str "https://example.org/t"), Body := .ok [] })
    (.ok { StatusCode := 200, Status := str "200 OK", Location := .absent,
           Body := .ok (str "\x7b\"text\":\"moved\"\x7d") })

/-! ## The decoder on sample inputs -/

/-- The scanner accepts what `encoding/json` accepts and rejects the rest. -/
theorem checkValid_samples :
    checkValid (str " \x7b\"text\": \"hi\", \"n\": [1, -2.5e+3, true, null]\x7d\n") = none ∧
    checkValid (str "[1") = some .unexpectedEnd ∧
    checkValid (str "") = some .unexpectedEnd ∧
    checkValid (str "01") =
      some (.invalidCharacter 0x31 (str "after top-level value")) ∧
    checkValid (str "\x7b\"a\" 1\x7d") =
      some (.invalidCharacter 0x31 (str "after object key")) ∧
    checkValid (str "\"a\\x\"") =
      some (.invalidCharacter 0x78 (str "in string escape code")) ∧
    checkValid (str "<html>") =
      some (.invalidCharacter 0x3C (str "looking for beginning of value")) := by
  refine ⟨?_, ?_, ?_, ?_, ?_, ?_, ?_⟩ <;> decide

/-- String literals: escapes, surrogate pairs, and the replacement of what is
not well-formed UTF-8. -/
theorem unquoteBytes_samples :
    unquoteBytes (str "\"a\\u00e9b\\n\"") = some (str "aéb\n") ∧
    unquoteBytes (str "\"\\ud83d\\ude00\"") = some (str "😀") ∧
    unquoteBytes (str "\"\\ud83dx\"") = some (str "\uFFFDx") ∧
    unquoteBytes (str "\"é😀\"") = some (str "é😀") ∧
    unquoteBytes [0x22, 0xC3, 0x22] = some (str "\uFFFD") ∧
    unquoteBytes [0x22, 0xED, 0xA0, 0x80, 0x22] = some (str "\uFFFD\uFFFD\uFFFD") := by
  refine ⟨?_, ?_, ?_, ?_, ?_, ?_⟩ <;> decide

/-- The top-level value and the members the decoder sees; what lies inside a
nested array or object is skipped. -/
theorem document_samples :
    document (str "\x7b\"text\": \"hi\", \"a\": [1, \x7b\"text\": 2\x7d], \"b\": \x7b\"text\": 1\x7d, \"c\": -1 \x7d") =
      some (.object [(str "text", .string (str "hi")), (str "a", .array),
        (str "b", .object ()), (str "c", .number)]) ∧
    document (str " 12 ") = some .number ∧
    document (str "[\x7b\"text\":\"a\"\x7d]") = some .array ∧
    document (str "\"x\"") = some (.string (str "x")) := by
  refine ⟨?_, ?_, ?_, ?_⟩ <;> decide

/-- The function `filepath.Base` on sample paths. -/
theorem Base_samples :
    Base (str "/a/b/c.mp4//") = str "c.mp4" ∧ Base (str "///") = str "/" ∧
      Base (str "c") = str "c" ∧ Base [] = str "." := by
  refine ⟨?_, ?_, ?_, ?_⟩ <;> decide

/-- The upload request for the sample file, written out: method, URL,
headers and the bytes of the multipart body. -/
theorem uploadRequest_sample :
    uploadRequest (str "0f") (str "dir/a.mp4") (str "k") [1, 2, 3, 4] =
      { Method := str "POST"
        URL := str "https://api.openai.com/v1/audio/transcriptions"
        Header := [(str "Content-Type", str "multipart/form-data; boundary=0f"),
          (str "Authorization", str "Bearer k")]
        Body := str ("--0f\r\n" ++
            "Content-Disposition: form-data; name=\"file\"; filename=\"a.mp4\"\r\n" ++
            "Content-Type: videp/mp4\r\n\r\n") ++ [1, 2, 3, 4] ++
          str ("\r\n--0f\r\n" ++
            "Content-Disposition: form-data; name=\"model\"\r\n\r\n" ++
            "whisper-1\r\n--0f--\r\n") } := by
  decide

/-- The rendering `%d` on sample numbers. -/
theorem decimal_samples :
    decimal 404 = str "404" ∧ decimal 0 = str "0" ∧ decimal (-7) = str "-7" ∧
      decimal 1000 = str "1000" := by
  refine ⟨?_, ?_, ?_, ?_⟩ <;> decide

/-- A body with a byte that is no UTF-8 inside a string passes the syntax
check, and the byte is decoded as U+FFFD. -/
theorem invalid_utf8_accepted :
    checkValid (str "\x7b\"text\":\"a" ++ [0xFF] ++ str "b\"\x7d") = none ∧
    Unmarshal (str "\x7b\"text\":\"a" ++ [0xFF] ++ str "b\"\x7d") { Text := [] } =
      .done { Text := str "a�b" } none := by
  refine ⟨?_, ?_⟩ <;> decide

/-- The client on sample answers: a credential with a line feed is refused
before anything is sent; after `303 See Other` the follow-up is a GET without
the body; a server that redirects for ever is left after the tenth request. -/
theorem clientDo_samples :
    validateHeaders [(str "Authorization", str "Bearer a\nb")] =
      some (.invalidFieldValue (str "Authorization")) ∧
    validateHeaders [(str "Authorization", str "Bearer a\tb c")] = none ∧
    (followRedirects (redirectingWorld (str "k")) 9 1 (str "POST")
        { StatusCode := 303, Status := str "303 See Other",
          Location := .target (str "https://example.org/t"), Body := .ok [] }).1 =
      [.resend (str "GET") (str "https://example.org/t") false] ∧
    outboundRequests ((transcribeAudio
        (twoAnswerWorld (some (str "k")) (some (.ok [1, 2, 3, 4]))
          (.ok { StatusCode := 307, Status := str "307 Temporary Redirect",
                 Location := .target (str "https://example.org/t"), Body := .ok [] })
          (.ok { StatusCode := 307, Status := str "307 Temporary Redirect",
                 Location := .target (str "https://example.org/t"), Body := .ok [] }))
        (str "a.mp4")).run).2.events = 10 := by
  refine ⟨?_, ?_, ?_, ?_⟩ <;> decide!

/-! ## Lemmas on the library functions -/

theorem readDigits_append (a b : Bytes) (acc : Nat) :
    readDigits acc (a ++ b) = (readDigits acc a).bind (fun x => readDigits x b) := by
  induction a generalizing acc with
  | nil => rfl
  | cons d rest ih =>
    by_cases h : 0x30 ≤ d ∧ d ≤ 0x39
    · simp [readDigits, h, ih]
    · simp [readDigits, h]

/-- The digits `%d` writes, read back first digit first, give the number. -/
theorem readDigits_decimalDigits (fuel n : Nat) (h : n < fuel) :
    readDigits 0 (decimalDigits fuel n).reverse = some n ∧ decimalDigits fuel n ≠ [] := by
  induction fuel generalizing n with
  | zero => omega
  | succ fuel ih =>
    by_cases h10 : n < 10
    · have h1 : 0x30 ≤ 0x30 + n ∧ 0x30 + n ≤ 0x39 := by omega
      simp [decimalDigits, h10, readDigits, h1]
    · have hlt : n / 10 < fuel := by omega
      obtain ⟨ih1, _⟩ := ih (n / 10) hlt
      have h1 : 0x30 ≤ 0x30 + n % 10 ∧ 0x30 + n % 10 ≤ 0x39 := by omega
      simp only [decimalDigits, h10, if_false, List.reverse_cons, readDigits_append, ih1,
        Option.bind, readDigits, h1, and_self, if_true]
      refine ⟨?_, by simp⟩
      congr 1
      omega

/-- Reading the decimal rendering of a natural number gives it back. -/
theorem readNat_decimalNat (n : Nat) : readNat (decimalNat n) = some n := by
  obtain ⟨h1, h2⟩ := readDigits_decimalDigits (n + 1) n (by omega)
  have h3 : (decimalDigits (n + 1) n).reverse ≠ [] := by simpa using h2
  simp [readNat, decimalNat, h1, h3]

/-- The rendering of a natural number starts with a digit, not a minus sign. -/
theorem decimalNat_head (n : Nat) : ∀ rest, decimalNat n ≠ 0x2D :: rest := by
  intro rest hEq
  have h := readNat_decimalNat n
  rw [hEq] at h
  simp [readNat, readDigits] at h

/-- Reading the rendering `%d` of an integer gives it back: the rendering
carries the number. -/
theorem readInt_decimal (n : Int) : readInt (decimal n) = some n := by
  cases n with
  | ofNat m =>
    have h := readNat_decimalNat m
    have hh := decimalNat_head m
    simp only [decimal]
    unfold readInt
    split
    · rename_i rest heq
      exact absurd heq (hh rest)
    · simp [h]
  | negSucc m =>
    have h := readNat_decimalNat (m + 1)
    simp only [decimal, readInt, h, Option.map]
    rfl

/-- Every byte of the boundary is a hexadecimal digit in lower case. -/
theorem boundary_hex (w : World) : ∀ c ∈ w.boundary, ∃ n, n < 16 ∧ c = hexDigit n := by
  intro c hc
  simp only [World.boundary, List.mem_flatMap, List.mem_range, List.mem_cons,
    List.mem_singleton, List.not_mem_nil, or_false] at hc
  obtain ⟨i, _, h | h⟩ := hc
  · exact ⟨w.random.getD i 0 % 256 / 16, by omega, h⟩
  · exact ⟨w.random.getD i 0 % 16, by omega, h⟩

theorem hexDigit_plain :
    ∀ n, n < 16 → (str "()<>@,;:\\\"/[]?= ").contains (hexDigit n) = false ∧
      (!((hexDigit n < 0x20 || hexDigit n = 0x7F) &&
        !(hexDigit n = 0x20 || hexDigit n = 0x09))) = true := by
  decide

/-- The boundary needs no quotes in the content type. -/
theorem formDataContentType_eq (w : World) :
    (NewWriter w.boundary).FormDataContentType =
      str "multipart/form-data; boundary=" ++ w.boundary := by
  have h : w.boundary.any (fun c => (str "()<>@,;:\\\"/[]?= ").contains c) = false := by
    rw [List.any_eq_false]
    intro c hc
    obtain ⟨n, hn, rfl⟩ := boundary_hex w c hc
    rw [(hexDigit_plain n hn).1]
    simp
  simp only [Writer.FormDataContentType, NewWriter, h, Bool.false_eq_true, if_false]

/-- The content type of the request is a valid header value. -/
theorem contentType_valid (w : World) :
    ValidHeaderFieldValue (NewWriter w.boundary).FormDataContentType = true := by
  rw [formDataContentType_eq]
  have h1 : ValidHeaderFieldValue (str "multipart/form-data; boundary=") = true := by decide
  simp only [ValidHeaderFieldValue, List.all_append, Bool.and_eq_true] at h1 ⊢
  refine ⟨h1, ?_⟩
  rw [List.all_eq_true]
  intro c hc
  obtain ⟨n, hn, rfl⟩ := boundary_hex w c hc
  exact (hexDigit_plain n hn).2

/-- The transport accepts the headers of the upload request exactly when the
credential is a valid header value. -/
theorem validateHeaders_upload (w : World) (p k c : Bytes) :
    validateHeaders (uploadRequest w.boundary p k c).Header =
      if ValidHeaderFieldValue k then none
      else some (.invalidFieldValue (str "Authorization")) := by
  have h1 : ValidHeaderFieldName (str "Content-Type") = true := by decide
  have h2 : ValidHeaderFieldName (str "Authorization") = true := by decide
  have h3 : ValidHeaderFieldValue (str "Bearer ") = true := by decide
  have h4 : ValidHeaderFieldValue (str "Bearer " ++ k) = ValidHeaderFieldValue k := by
    simp only [ValidHeaderFieldValue, List.all_append] at h3 ⊢
    rw [h3]
    simp
  simp only [uploadRequest, validateHeaders, h1, h2, contentType_valid, h4, Bool.not_true]
  cases ValidHeaderFieldValue k <;> simp

/-- The redirect loop sends no request of the program's making. -/
theorem followRedirects_sent (w : World) (allowed hop : Nat) (method : Bytes)
    (resp : Response) : sentRequests (followRedirects w allowed hop method resp).1 = [] := by
  induction allowed generalizing hop method resp with
  | zero =>
    simp only [followRedirects]
    split <;> rfl
  | succ allowed ih =>
    simp only [followRedirects]
    split
    · rfl
    · rfl
    · rfl
    · split
      · split <;> rfl
      · simp [sentRequests, ih]

/-- The redirect loop sends at most as many requests as the policy admits. -/
theorem followRedirects_outbound (w : World) (allowed hop : Nat) (method : Bytes)
    (resp : Response) :
    outboundRequests (followRedirects w allowed hop method resp).1 ≤ allowed := by
  induction allowed generalizing hop method resp with
  | zero =>
    simp only [followRedirects]
    split <;> simp [outboundRequests]
  | succ allowed ih =>
    simp only [followRedirects]
    split
    · simp [outboundRequests]
    · simp [outboundRequests]
    · simp [outboundRequests]
    · split
      · split <;> simp [outboundRequests]
      · simp only [outboundRequests]
        exact Nat.succ_le_succ (ih _ _ _)

/-- An answer that is no redirect to follow ends the loop at once. -/
theorem followRedirects_final (w : World) (allowed hop : Nat) (method : Bytes)
    (resp : Response) (h : redirectBehavior method resp = none ∨ resp.Location = .absent) :
    followRedirects w allowed hop method resp = ([], .ok resp) := by
  cases allowed with
  | zero =>
    simp only [followRedirects]
    split
    · rfl
    · rfl
    · rcases h with h | h <;> simp_all
    · rcases h with h | h <;> simp_all
  | succ allowed =>
    simp only [followRedirects]
    split
    · rfl
    · rfl
    · rcases h with h | h <;> simp_all
    · rcases h with h | h <;> simp_all

theorem sentRequests_append (a b : List Event) :
    sentRequests (a ++ b) = sentRequests a ++ sentRequests b := by
  induction a with
  | nil => rfl
  | cons e rest ih => cases e <;> simp [sentRequests, ih]

theorem outboundRequests_append (a b : List Event) :
    outboundRequests (a ++ b) = outboundRequests a + outboundRequests b := by
  induction a with
  | nil => simp [outboundRequests]
  | cons e rest ih => cases e <;> simp [outboundRequests, ih] <;> omega

/-- What goes out in one call of the client: at most the request, alone of
the program's making, and at most ten requests in all. -/
theorem clientDo_sent (w : World) (req : Request) :
    (sentRequests (clientDo w req).1 = [] ∨ sentRequests (clientDo w req).1 = [req]) ∧
      outboundRequests (clientDo w req).1 ≤ 10 := by
  cases hv : validateHeaders req.Header with
  | some e => simp [clientDo, hv, sentRequests, outboundRequests]
  | none =>
    cases hr : w.RoundTrip req with
    | error f => cases hf : f.sent <;> simp [clientDo, hv, hr, hf, sentRequests, outboundRequests]
    | ok resp =>
      have h1 := followRedirects_sent w 9 1 req.Method resp
      have h2 := followRedirects_outbound w 9 1 req.Method resp
      refine ⟨Or.inr ?_, ?_⟩
      · simp [clientDo, hv, hr, sentRequests, h1]
      · simp only [clientDo, hv, hr, outboundRequests]
        omega

/-- When the transport accepts the headers and the request reaches the
server, the request goes out first. -/
theorem clientDo_reached (w : World) (req : Request)
    (hv : validateHeaders req.Header = none)
    (hr : Reaches w req) :
    sentRequests (clientDo w req).1 = [req] ∧ 1 ≤ outboundRequests (clientDo w req).1 ∧
      ∃ rest, (clientDo w req).1 = .send req :: rest := by
  cases hrt : w.RoundTrip req with
  | error f =>
    obtain ⟨err, sent⟩ := f
    cases sent with
    | false => exact absurd hrt (hr err)
    | true => simp [clientDo, hv, hrt, sentRequests, outboundRequests]
  | ok resp =>
    have h1 := followRedirects_sent w 9 1 req.Method resp
    refine ⟨?_, ?_, ?_⟩
    · simp [clientDo, hv, hrt, sentRequests, h1]
    · simp [clientDo, hv, hrt, outboundRequests]
    · exact ⟨(followRedirects w 9 1 req.Method resp).1, by simp only [clientDo, hv, hrt]⟩

/-- When the transport refuses the headers nothing goes out. -/
theorem clientDo_refused (w : World) (req : Request) (e : ClientError)
    (hv : validateHeaders req.Header = some e) :
    clientDo w req = ([], .error (.foreign (w.clientErrorText e))) := by
  simp [clientDo, hv]

/-- An answer of the client comes after the request went out. -/
theorem clientDo_ok (w : World) (req : Request) (resp : Response)
    (h : (clientDo w req).2 = .ok resp) :
    validateHeaders req.Header = none ∧ sentRequests (clientDo w req).1 = [req] := by
  cases hv : validateHeaders req.Header with
  | some e => simp [clientDo, hv] at h
  | none =>
    refine ⟨rfl, ?_⟩
    cases hrt : w.RoundTrip req with
    | error f => simp [clientDo, hv, hrt] at h
    | ok r =>
      have h1 := followRedirects_sent w 9 1 req.Method r
      simp [clientDo, hv, hrt, sentRequests, h1]

theorem canonical_contentDisposition :
    CanonicalMIMEHeaderKey (str "Content-Disposition") = str "Content-Disposition" := by decide

theorem canonical_contentType :
    CanonicalMIMEHeaderKey (str "Content-Type") = str "Content-Type" := by decide

theorem canonical_authorization :
    CanonicalMIMEHeaderKey (str "Authorization") = str "Authorization" := by decide

theorem partHeader_eq (v1 v2 : Bytes) :
    Header.Set (Header.Set [] (str "Content-Disposition") v1) (str "Content-Type") v2 =
      [(str "Content-Disposition", v1), (str "Content-Type", v2)] := by
  have h : str "Content-Disposition" ≠ str "Content-Type" := by decide
  simp [Header.Set, canonical_contentDisposition, canonical_contentType, h]

theorem sortedByKey_partHeader (v1 v2 : Bytes) :
    sortedByKey [(str "Content-Disposition", v1), (str "Content-Type", v2)] =
      [(str "Content-Disposition", v1), (str "Content-Type", v2)] := by
  have h : bytesLe (str "Content-Disposition") (str "Content-Type") = true := by decide
  simp [sortedByKey, insertByKey, h]

theorem requestHeader_eq (v1 v2 : Bytes) :
    Header.Set (Header.Set [] (str "Content-Type") v1) (str "Authorization") v2 =
      [(str "Content-Type", v1), (str "Authorization", v2)] := by
  have h : str "Content-Type" ≠ str "Authorization" := by decide
  simp [Header.Set, canonical_authorization, canonical_contentType, h]

theorem newRequest_post (url body : Bytes) :
    NewRequest (str "POST") url body =
      .ok { Method := str "POST", URL := url, Header := [], Body := body } := by
  have h1 : str "POST" ≠ [] := by decide
  have h2 : (str "POST").all validHeaderFieldByte = true := by decide
  simp [NewRequest, h1, h2]

/-- The multipart body the writer has produced when `transcribeAudio` builds
the request. -/
theorem writer_body (boundary name c : Bytes) :
    ∃ w1 w2 w3 w4,
      (NewWriter boundary).CreatePart [(str "Content-Disposition", name),
        (str "Content-Type", str "videp/mp4")] = .ok w1 ∧
      w1.Write c = .ok w2 ∧
      w2.WriteField (str "model") (str "whisper-1") = .ok w3 ∧
      w3.Close = .ok w4 ∧ w4.boundary = boundary ∧
      w4.b = encodeMultipart boundary
        [{ header := [(str "Content-Disposition", name), (str "Content-Type", str "videp/mp4")],
           payload := c },
         { header := [(str "Content-Disposition", str "form-data; name=\"model\"")],
           payload := str "whisper-1" }] := by
  have e1 : str "\r\n--" = str "\r\n" ++ str "--" := by decide
  have e2 : escapeQuotes (str "model") = str "model" := by decide
  have e3 : str "form-data; name=\"" ++ str "model" ++ str "\"" = str "form-data; name=\"model\"" := by
    decide
  refine ⟨_, _, _, _, rfl, rfl, rfl, rfl, rfl, ?_⟩
  simp only [NewWriter, Writer.CreatePart, Writer.Write, Writer.WriteField, Writer.Close,
    encodeMultipart, encodePart, sortedByKey_partHeader, Header.Set, canonical_contentDisposition,
    e1, e2, e3]
  simp [sortedByKey, insertByKey, List.append_assoc, encodePart]

theorem run_decoded (w : World) (p k c body : Bytes) (file : File) (resp : Response)
    (hk : w.Getenv (str "OPENAI_API_KEY") = k) (hne : k ≠ [])
    (ho : w.Open p = .ok file) (hc : file.contents = .ok c)
    (hd : (clientDo w (uploadRequest w.boundary p k c)).2 = .ok resp)
    (hs : resp.StatusCode = 200) (hb : resp.Body = .ok body) :
    (transcribeAudio w p).run =
      (match Unmarshal body { Text := [] } with
        | .outOfSync => .panicked (str "JSON decoder out of sync - data changing underfoot?")
        | .done _ (some err) =>
          .returned (none, some (Errorf_w (str "Error: Failed to unmarshal JSON: ")
            (.foreign (w.jsonErrorText err))))
        | .done t none => .returned (some t, none),
       { stdout := [],
         events := [.openFile p, .readFile] ++
            (clientDo w (uploadRequest w.boundary p k c)).1 ++ [.readBody, .unmarshal body, .closeBody, .closeFile] }) := by
  obtain ⟨w1, w2, w3, w4, h1, h2, h3, h4, h5, h6⟩ := writer_body w.boundary
    (str "form-data; name=\"file\"; filename=\"" ++ Base p ++ str "\"") c
  have hreq : Request.mk (str "POST") transcriptionURL
      [(str "Content-Type", w4.FormDataContentType), (str "Authorization", str "Bearer " ++ k)]
      w4.b = uploadRequest w.boundary p k c := by
    simp [uploadRequest, h6, Writer.FormDataContentType, h5, NewWriter]
  simp only [transcribeAudio, Proc.run, bind, Proc.bind, Open, emit, deferring, Copy, Do, ReadAll,
    pure, hk, hne, ho, hc, partHeader_eq, h1, h2, h3, h4, newRequest_post, requestHeader_eq,
    hreq, hd, hs, hb, StatusOK, if_false, ite_false]
  cases hU : Unmarshal body { Text := [] } with
  | outOfSync => simp [Proc.bind, emit, runtimePanic, hU]
  | done t e => cases e <;> simp [Proc.bind, emit, hU]

/-! ## The paths through `transcribeAudio` -/

theorem run_noKey (w : World) (p : Bytes) (hk : w.Getenv (str "OPENAI_API_KEY") = []) :
    (transcribeAudio w p).run =
      (.exited 1, { stdout := str "Error: Required OPENAI_API_KEY" ++ str "\n", events := [] }) := by
  simp [transcribeAudio, Proc.run, hk, bind, Proc.bind, Println, Exit]

theorem run_openFails (w : World) (p : Bytes) (err : GoError)
    (hne : w.Getenv (str "OPENAI_API_KEY") ≠ []) (ho : w.Open p = .error err) :
    (transcribeAudio w p).run =
      (.returned (none, some (Errorf_w (str "Error: Failed to open audio file: ") err)),
        { stdout := [], events := [.openFile p] }) := by
  simp [transcribeAudio, Proc.run, bind, Proc.bind, Open, emit, pure, hne, ho]

theorem run_readFails (w : World) (p : Bytes) (file : File) (err : GoError)
    (hne : w.Getenv (str "OPENAI_API_KEY") ≠ [])
    (ho : w.Open p = .ok file) (hc : file.contents = .error err) :
    (transcribeAudio w p).run =
      (.returned (none, some (Errorf_w (str "Error: Failed to copy file into form part: ") err)),
        { stdout := [], events := [.openFile p, .readFile, .closeFile] }) := by
  simp [transcribeAudio, Proc.run, bind, Proc.bind, Open, emit, deferring, Copy, pure, hne, ho,
    hc, partHeader_eq, Writer.CreatePart]

/-- Up to the round trip: with a credential and a readable file, the run
sends the upload request and goes on with what the world answers. -/
theorem run_sendFails (w : World) (p k c : Bytes) (file : File) (err : GoError)
    (hk : w.Getenv (str "OPENAI_API_KEY") = k) (hne : k ≠ [])
    (ho : w.Open p = .ok file) (hc : file.contents = .ok c)
    (hd : (clientDo w (uploadRequest w.boundary p k c)).2 = .error err) :
    (transcribeAudio w p).run =
      (.returned (none, some (Errorf_w (str "Error: Failed to send request: ") err)),
        { stdout := [],
          events := [.openFile p, .readFile] ++
            (clientDo w (uploadRequest w.boundary p k c)).1 ++ [.closeFile] }) := by
  obtain ⟨w1, w2, w3, w4, h1, h2, h3, h4, h5, h6⟩ := writer_body w.boundary
    (str "form-data; name=\"file\"; filename=\"" ++ Base p ++ str "\"") c
  have hreq : Request.mk (str "POST") transcriptionURL
      [(str "Content-Type", w4.FormDataContentType), (str "Authorization", str "Bearer " ++ k)]
      w4.b = uploadRequest w.boundary p k c := by
    simp [uploadRequest, h6, Writer.FormDataContentType, h5, NewWriter]
  simp only [transcribeAudio, Proc.run, bind, Proc.bind, Open, emit, deferring, Copy, Do,
    pure, hk, hne, ho, hc, partHeader_eq, h1, h2, h3, h4, newRequest_post, requestHeader_eq,
    hreq, hd, if_false, ite_false]
  simp

theorem run_non200 (w : World) (p k c : Bytes) (file : File) (resp : Response)
    (hk : w.Getenv (str "OPENAI_API_KEY") = k) (hne : k ≠ [])
    (ho : w.Open p = .ok file) (hc : file.contents = .ok c)
    (hd : (clientDo w (uploadRequest w.boundary p k c)).2 = .ok resp) (hs : resp.StatusCode ≠ 200) :
    (transcribeAudio w p).run =
      (.returned (none, some (.errorf (str "Error: Non-200 response: " ++
          decimal resp.StatusCode ++ str " " ++ resp.Status))),
        { stdout := [],
          events := [.openFile p, .readFile] ++
            (clientDo w (uploadRequest w.boundary p k c)).1 ++ [.closeBody, .closeFile] }) := by
  obtain ⟨w1, w2, w3, w4, h1, h2, h3, h4, h5, h6⟩ := writer_body w.boundary
    (str "form-data; name=\"file\"; filename=\"" ++ Base p ++ str "\"") c
  have hreq : Request.mk (str "POST") transcriptionURL
      [(str "Content-Type", w4.FormDataContentType), (str "Authorization", str "Bearer " ++ k)]
      w4.b = uploadRequest w.boundary p k c := by
    simp [uploadRequest, h6, Writer.FormDataContentType, h5, NewWriter]
  simp only [transcribeAudio, Proc.run, bind, Proc.bind, Open, emit, deferring, Copy, Do,
    pure, hk, hne, ho, hc, partHeader_eq, h1, h2, h3, h4, newRequest_post, requestHeader_eq,
    hreq, hd, StatusOK, if_false, ite_false]
  simp [hs]

theorem run_bodyFails (w : World) (p k c : Bytes) (file : File) (resp : Response)
    (err : GoError)
    (hk : w.Getenv (str "OPENAI_API_KEY") = k) (hne : k ≠ [])
    (ho : w.Open p = .ok file) (hc : file.contents = .ok c)
    (hd : (clientDo w (uploadRequest w.boundary p k c)).2 = .ok resp) (hs : resp.StatusCode = 200)
    (hb : resp.Body = .error err) :
    (transcribeAudio w p).run =
      (.returned (none, some (Errorf_w (str "Error: Failed to read response body: ") err)),
        { stdout := [],
          events := [.openFile p, .readFile] ++
            (clientDo w (uploadRequest w.boundary p k c)).1 ++ [.readBody, .closeBody, .closeFile] }) := by
  obtain ⟨w1, w2, w3, w4, h1, h2, h3, h4, h5, h6⟩ := writer_body w.boundary
    (str "form-data; name=\"file\"; filename=\"" ++ Base p ++ str "\"") c
  have hreq : Request.mk (str "POST") transcriptionURL
      [(str "Content-Type", w4.FormDataContentType), (str "Authorization", str "Bearer " ++ k)]
      w4.b = uploadRequest w.boundary p k c := by
    simp [uploadRequest, h6, Writer.FormDataContentType, h5, NewWriter]
  simp only [transcribeAudio, Proc.run, bind, Proc.bind, Open, emit, deferring, Copy, Do, ReadAll,
    pure, hk, hne, ho, hc, partHeader_eq, h1, h2, h3, h4, newRequest_post, requestHeader_eq,
    hreq, hd, hs, hb, StatusOK, if_false, ite_false]
  simp [Proc.bind, emit]

/-- The events of a run that reaches the client, whatever comes after the
call: the file is opened and read, then what the client sends, then events
that are no requests. -/
theorem run_reaching_client (w : World) (p c : Bytes) (file : File)
    (hk : w.Getenv (str "OPENAI_API_KEY") ≠ [])
    (ho : w.Open p = .ok file) (hc : file.contents = .ok c) :
    ((transcribeAudio w p).run).2.stdout = [] ∧
    sentRequests ((transcribeAudio w p).run).2.events =
      sentRequests (clientDo w (uploadRequest w.boundary p (w.Getenv (str "OPENAI_API_KEY")) c)).1 ∧
    outboundRequests ((transcribeAudio w p).run).2.events =
      outboundRequests
        (clientDo w (uploadRequest w.boundary p (w.Getenv (str "OPENAI_API_KEY")) c)).1 ∧
    ((∃ e, ((transcribeAudio w p).run).1 = .returned (none, some e)) ∨
       (∃ t, ((transcribeAudio w p).run).1 = .returned (some t, none)) ∨
       (∃ m, ((transcribeAudio w p).run).1 = .panicked m)) := by
  cases hd : (clientDo w (uploadRequest w.boundary p (w.Getenv (str "OPENAI_API_KEY")) c)).2 with
  | error err =>
    simp [run_sendFails w p _ c file err rfl hk ho hc hd, sentRequests_append,
      outboundRequests_append, sentRequests, outboundRequests]
  | ok resp =>
    by_cases hs : resp.StatusCode = 200
    · cases hb : resp.Body with
      | error err =>
        simp [run_bodyFails w p _ c file resp err rfl hk ho hc hd hs hb, sentRequests_append,
          outboundRequests_append, sentRequests, outboundRequests]
      | ok body =>
        rw [run_decoded w p _ c body file resp rfl hk ho hc hd hs hb]
        cases hU : Unmarshal body { Text := [] } with
        | outOfSync =>
          simp [sentRequests_append, outboundRequests_append, sentRequests, outboundRequests]
        | done t e =>
          cases e <;>
            simp [sentRequests_append, outboundRequests_append, sentRequests, outboundRequests]
    · simp [run_non200 w p _ c file resp rfl hk ho hc hd hs, sentRequests_append,
        outboundRequests_append, sentRequests, outboundRequests]

/-- Every run of `transcribeAudio` from the start: without a credential the
process exits with status 1; with one, nothing is written, at most one
request of the program's making is sent, at most ten requests go out in all,
and the run returns `nil` with an error, or a transcript with no error, or
panics in the decoder. -/
theorem run_shape (w : World) (p : Bytes) :
    (w.Getenv (str "OPENAI_API_KEY") = [] ∧
      (transcribeAudio w p).run =
        (.exited 1, { stdout := str "Error: Required OPENAI_API_KEY" ++ str "\n", events := [] })) ∨
    (w.Getenv (str "OPENAI_API_KEY") ≠ [] ∧
      ((transcribeAudio w p).run).2.stdout = [] ∧
      (sentRequests ((transcribeAudio w p).run).2.events).length ≤ 1 ∧
      outboundRequests ((transcribeAudio w p).run).2.events ≤ 10 ∧
      ((∃ e, ((transcribeAudio w p).run).1 = .returned (none, some e)) ∨
       (∃ t, ((transcribeAudio w p).run).1 = .returned (some t, none)) ∨
       (∃ m, ((transcribeAudio w p).run).1 = .panicked m))) := by
  by_cases hk : w.Getenv (str "OPENAI_API_KEY") = []
  · exact Or.inl ⟨hk, run_noKey w p hk⟩
  · refine Or.inr ⟨hk, ?_⟩
    cases ho : w.Open p with
    | error err => simp [run_openFails w p err hk ho, sentRequests, outboundRequests]
    | ok file =>
      cases hc : file.contents with
      | error err => simp [run_readFails w p file err hk ho hc, sentRequests, outboundRequests]
      | ok c =>
        obtain ⟨h1, h2, h3, h4⟩ := run_reaching_client w p c file hk ho hc
        obtain ⟨hsent, hle⟩ :=
          clientDo_sent w (uploadRequest w.boundary p (w.Getenv (str "OPENAI_API_KEY")) c)
        refine ⟨h1, ?_, ?_, h4⟩
        · rw [h2]
          rcases hsent with h | h <;> simp [h]
        · rw [h3]
          exact hle

/-- A request of the program's making that was sent is the upload request of
a readable file, sent with a non-empty credential that is a valid header
value. -/
theorem sent_inv (w : World) (p : Bytes) (req : Request)
    (h : req ∈ sentRequests ((transcribeAudio w p).run).2.events) :
    ∃ file c, w.Getenv (str "OPENAI_API_KEY") ≠ [] ∧ w.Open p = .ok file ∧
      file.contents = .ok c ∧
      req = uploadRequest w.boundary p (w.Getenv (str "OPENAI_API_KEY")) c := by
  by_cases hk : w.Getenv (str "OPENAI_API_KEY") = []
  · simp [run_noKey w p hk, sentRequests] at h
  · cases ho : w.Open p with
    | error err => simp [run_openFails w p err hk ho, sentRequests] at h
    | ok file =>
      cases hc : file.contents with
      | error err => simp [run_readFails w p file err hk ho hc, sentRequests] at h
      | ok c =>
        refine ⟨file, c, hk, rfl, hc, ?_⟩
        rw [(run_reaching_client w p c file hk ho hc).2.1] at h
        rcases (clientDo_sent w
          (uploadRequest w.boundary p (w.Getenv (str "OPENAI_API_KEY")) c)).1 with h1 | h1
        · simp [h1] at h
        · simpa [h1] using h

/-- With a credential that is a valid header value, a readable file and a
server that is reached, the upload request is sent, and it is the one
request of the program's making. -/
theorem sent_eq (w : World) (p c : Bytes) (file : File)
    (hk : w.Getenv (str "OPENAI_API_KEY") ≠ [])
    (hv : ValidHeaderFieldValue (w.Getenv (str "OPENAI_API_KEY")) = true)
    (ho : w.Open p = .ok file) (hc : file.contents = .ok c)
    (hr : Reaches w (uploadRequest w.boundary p (w.Getenv (str "OPENAI_API_KEY")) c)) :
    sentRequests ((transcribeAudio w p).run).2.events =
      [uploadRequest w.boundary p (w.Getenv (str "OPENAI_API_KEY")) c] := by
  rw [(run_reaching_client w p c file hk ho hc).2.1]
  have hval := validateHeaders_upload w p (w.Getenv (str "OPENAI_API_KEY")) c
  rw [hv] at hval
  simp only [if_true] at hval
  exact (clientDo_reached w _ hval hr).1

/-- With a credential that holds a control byte nothing goes out: the
transport refuses the request, and `transcribeAudio` returns the error. -/
theorem refused (w : World) (p c : Bytes) (file : File)
    (hk : w.Getenv (str "OPENAI_API_KEY") ≠ [])
    (hv : ValidHeaderFieldValue (w.Getenv (str "OPENAI_API_KEY")) = false)
    (ho : w.Open p = .ok file) (hc : file.contents = .ok c) :
    (transcribeAudio w p).run =
      (.returned (none, some (Errorf_w (str "Error: Failed to send request: ")
          (.foreign (w.clientErrorText (.invalidFieldValue (str "Authorization")))))),
        { stdout := [], events := [.openFile p, .readFile, .closeFile] }) := by
  have h1 : clientDo w (uploadRequest w.boundary p (w.Getenv (str "OPENAI_API_KEY")) c) =
      ([], .error (.foreign (w.clientErrorText (.invalidFieldValue (str "Authorization"))))) := by
    simp only [clientDo, validateHeaders_upload, hv]
    simp
  rw [run_sendFails w p _ c file _ rfl hk ho hc (by rw [h1]), h1]
  simp

/-- Without a file argument `main` prints the usage and exits with status 1. -/
theorem main_noArgs (w : World) (h : w.Args.length < 2) :
    (main w).run =
      (.exited 1,
        { stdout := str "Error: The file to be processed must be passed as an argument." ++
            str "\n" ++ str "USAGE: OPENAI_API_KEY=\x7byour api key\x7d whisper-t \x7bfile\x7d" ++
            str "\n",
          events := [] }) := by
  simp [main, Proc.run, bind, Proc.bind, Println, Exit, h]

/-- With a file argument, an exit inside `transcribeAudio` ends `main`. -/
theorem main_exited (w : World) (h : 2 ≤ w.Args.length) (code : Nat) (l : Log)
    (ht : (transcribeAudio w (w.Args.getD 1 [])).run = (.exited code, l)) :
    (main w).run = (.exited code, l) := by
  have h2 : ¬ w.Args.length < 2 := by omega
  simp only [Proc.run] at ht
  simp only [main, Proc.run, bind, Proc.bind, h2, if_false, ite_false, ht]

/-- With a file argument, a panic inside `transcribeAudio` ends `main`. -/
theorem main_panicked (w : World) (h : 2 ≤ w.Args.length) (msg : Bytes) (l : Log)
    (ht : (transcribeAudio w (w.Args.getD 1 [])).run = (.panicked msg, l)) :
    (main w).run = (.panicked msg, l) := by
  have h2 : ¬ w.Args.length < 2 := by omega
  simp only [Proc.run] at ht
  simp only [main, Proc.run, bind, Proc.bind, h2, if_false, ite_false, ht]

/-- With a file argument, after `transcribeAudio` returns a transcript and no
error, `main` prints its text and returns. -/
theorem main_success (w : World) (h : 2 ≤ w.Args.length) (t : Transcript) (l : Log)
    (ht : (transcribeAudio w (w.Args.getD 1 [])).run = (.returned (some t, none), l)) :
    (main w).run = (.returned (), { l with stdout := l.stdout ++ t.Text ++ str "\n" }) := by
  have h2 : ¬ w.Args.length < 2 := by omega
  simp only [Proc.run] at ht
  simp only [main, Proc.run, bind, Proc.bind, h2, if_false, ite_false, ht]
  simp [Proc.bind, pure, Println]

/-- With a file argument, after `transcribeAudio` returns `nil` and an error,
`main` prints the error and then reads `transcript.Text` through the `nil`
pointer. -/
theorem main_failure (w : World) (h : 2 ≤ w.Args.length) (e : GoError) (l : Log)
    (ht : (transcribeAudio w (w.Args.getD 1 [])).run = (.returned (none, some e), l)) :
    (main w).run =
      (.panicked (str "runtime error: invalid memory address or nil pointer dereference"),
        { l with stdout := l.stdout ++ (str "Error: transcription error: " ++ e.Error ++ str "\n") }) := by
  have h2 : ¬ w.Args.length < 2 := by omega
  simp only [Proc.run] at ht
  simp only [main, Proc.run, bind, Proc.bind, h2, if_false, ite_false, ht]
  simp [Proc.bind, pure, Printf, runtimePanic]

/-! ## Lemmas on decoding -/

theorem storeText_error (t : Transcript) (v : Member) :
    (storeText t v).2 = none ↔ storable v = true := by
  cases v <;> simp [storeText, storable]

theorem decodeMembers_saved (ms : List (Bytes × Member)) (t : Transcript) (e : JsonError) :
    (decodeMembers ms t (some e)).2 = some e := by
  induction ms generalizing t with
  | nil => rfl
  | cons kv rest ih =>
    obtain ⟨key, v⟩ := kv
    by_cases hm : matchesText key = true
    · simp [decodeMembers, hm, saveError, ih]
    · simp [decodeMembers, hm, ih]

theorem decodeMembers_error (ms : List (Bytes × Member)) (t : Transcript)
    (h : ∃ kv ∈ ms, matchesText kv.1 = true ∧ storable kv.2 = false) :
    ∃ e, (decodeMembers ms t none).2 = some e := by
  induction ms generalizing t with
  | nil => simp at h
  | cons kv rest ih =>
    obtain ⟨key, v⟩ := kv
    by_cases hm : matchesText key = true
    · by_cases hv : storable v = true
      · have hs : (storeText t v).2 = none := (storeText_error t v).2 hv
        obtain ⟨kv1, hmem, h1, h2⟩ := h
        simp only [List.mem_cons] at hmem
        rcases hmem with rfl | hmem
        · simp [hv] at h2
        · simp only [decodeMembers, hm, if_true, hs, saveError]
          exact ih _ ⟨kv1, hmem, h1, h2⟩
      · have hs : ∃ e, (storeText t v).2 = some e := by
          cases v <;> simp [storeText, storable] at hv ⊢
        obtain ⟨e, he⟩ := hs
        exact ⟨e, by simp [decodeMembers, hm, he, saveError, decodeMembers_saved]⟩
    · obtain ⟨kv1, hmem, h1, h2⟩ := h
      simp only [List.mem_cons] at hmem
      rcases hmem with rfl | hmem
      · exact absurd h1 hm
      · simp only [decodeMembers, hm]
        exact ih _ ⟨kv1, hmem, h1, h2⟩

theorem decodeMembers_append (a b : List (Bytes × Member)) (t : Transcript)
    (s : Option JsonError) :
    decodeMembers (a ++ b) t s =
      decodeMembers b (decodeMembers a t s).1 (decodeMembers a t s).2 := by
  induction a generalizing t s with
  | nil => rfl
  | cons kv rest ih =>
    obtain ⟨key, v⟩ := kv
    by_cases hm : matchesText key = true
    · simp [decodeMembers, hm, ih]
    · simp [decodeMembers, hm, ih]

theorem decodeMembers_storable (ms : List (Bytes × Member)) (t : Transcript)
    (h : ∀ kv ∈ ms, matchesText kv.1 = true → storable kv.2 = true) :
    (decodeMembers ms t none).2 = none := by
  induction ms generalizing t with
  | nil => rfl
  | cons kv rest ih =>
    obtain ⟨key, v⟩ := kv
    have hrest : ∀ kv ∈ rest, matchesText kv.1 = true → storable kv.2 = true :=
      fun kv hkv => h kv (List.mem_cons_of_mem _ hkv)
    by_cases hm : matchesText key = true
    · have hs : (storeText t v).2 = none :=
        (storeText_error t v).2 (h (key, v) (List.mem_cons_self _ _) hm)
      simp only [decodeMembers, hm, if_true, hs, saveError]
      exact ih _ hrest
    · simp only [decodeMembers, hm]
      exact ih _ hrest

theorem decodeMembers_null (ms : List (Bytes × Member)) (t : Transcript)
    (s : Option JsonError) (h : ∀ kv ∈ ms, matchesText kv.1 = true → kv.2 = .null) :
    decodeMembers ms t s = (t, s) := by
  induction ms generalizing t s with
  | nil => rfl
  | cons kv rest ih =>
    obtain ⟨key, v⟩ := kv
    have hrest : ∀ kv ∈ rest, matchesText kv.1 = true → kv.2 = .null :=
      fun kv hkv => h kv (List.mem_cons_of_mem _ hkv)
    by_cases hm : matchesText key = true
    · have hv : v = .null := h (key, v) (List.mem_cons_self _ _) hm
      subst hv
      cases s <;> simp [decodeMembers, hm, storeText, saveError, ih _ _ hrest]
    · simp [decodeMembers, hm, ih _ _ hrest]

/-- With a file argument `main` adds no event to those of its one call of
`transcribeAudio`. -/
theorem main_events (w : World) (h : 2 ≤ w.Args.length) :
    ((main w).run).2.events = ((transcribeAudio w (w.Args.getD 1 [])).run).2.events := by
  rcases run_shape w (w.Args.getD 1 []) with
    ⟨_, hrun⟩ | ⟨_, _, _, _, ⟨e, he⟩ | ⟨t, ht⟩ | ⟨m, hm⟩⟩
  · rw [main_exited w h 1 _ hrun, hrun]
  · have hrun : (transcribeAudio w (w.Args.getD 1 [])).run =
        (.returned (none, some e), ((transcribeAudio w (w.Args.getD 1 [])).run).2) := by
      rw [← he]
    rw [main_failure w h e _ hrun]
  · have hrun : (transcribeAudio w (w.Args.getD 1 [])).run =
        (.returned (some t, none), ((transcribeAudio w (w.Args.getD 1 [])).run).2) := by
      rw [← ht]
    rw [main_success w h t _ hrun]
  · have hrun : (transcribeAudio w (w.Args.getD 1 [])).run =
        (.panicked m, ((transcribeAudio w (w.Args.getD 1 [])).run).2) := by
      rw [← hm]
    rw [main_panicked w h m _ hrun]

/-- The client neither reads nor decodes a body. -/
theorem followRedirects_events (w : World) (allowed hop : Nat) (method : Bytes)
    (resp : Response) :
    ∀ e ∈ (followRedirects w allowed hop method resp).1,
      e ≠ Event.readBody ∧ ∀ data, e ≠ Event.unmarshal data := by
  induction allowed generalizing hop method resp with
  | zero =>
    simp only [followRedirects]
    split <;> simp
  | succ allowed ih =>
    simp only [followRedirects]
    split
    · simp
    · simp
    · simp
    · split
      · split <;> simp
      · intro e he
        simp only [List.mem_cons] at he
        rcases he with rfl | he
        · simp
        · exact ih _ _ _ e he

/-- The client neither reads nor decodes a body. -/
theorem clientDo_events (w : World) (req : Request) :
    ∀ e ∈ (clientDo w req).1, e ≠ Event.readBody ∧ ∀ data, e ≠ Event.unmarshal data := by
  intro e he
  simp only [clientDo] at he
  split at he
  · simp at he
  · split at he
    · split at he
      · simp only [List.mem_singleton] at he
        subst he
        simp
      · simp at he
    · simp only [List.mem_cons] at he
      rcases he with rfl | he
      · simp
      · exact followRedirects_events w _ _ _ _ e he

/-- With a credential that is a valid header value, a readable file and a
server that is reached, the run begins: the file is opened, it is read, the
upload request goes out. -/
theorem first_events (w : World) (p c : Bytes) (file : File)
    (hk : w.Getenv (str "OPENAI_API_KEY") ≠ [])
    (hv : ValidHeaderFieldValue (w.Getenv (str "OPENAI_API_KEY")) = true)
    (ho : w.Open p = .ok file) (hc : file.contents = .ok c)
    (hr : Reaches w (uploadRequest w.boundary p (w.Getenv (str "OPENAI_API_KEY")) c)) :
    ((transcribeAudio w p).run).2.events.take 3 =
      [.openFile p, .readFile,
        .send (uploadRequest w.boundary p (w.Getenv (str "OPENAI_API_KEY")) c)] := by
  have hval := validateHeaders_upload w p (w.Getenv (str "OPENAI_API_KEY")) c
  rw [hv] at hval
  simp only [if_true] at hval
  obtain ⟨_, _, rest, hrest⟩ := clientDo_reached w _ hval hr
  cases hd : (clientDo w (uploadRequest w.boundary p (w.Getenv (str "OPENAI_API_KEY")) c)).2 with
  | error err =>
    rw [run_sendFails w p _ c file err rfl hk ho hc hd, hrest]
    rfl
  | ok resp =>
    by_cases hs : resp.StatusCode = 200
    · cases hb : resp.Body with
      | error err =>
        rw [run_bodyFails w p _ c file resp err rfl hk ho hc hd hs hb, hrest]
        rfl
      | ok body =>
        rw [run_decoded w p _ c body file resp rfl hk ho hc hd hs hb, hrest]
        rfl
    · rw [run_non200 w p _ c file resp rfl hk ho hc hd hs, hrest]
      rfl

/-! ## The claims -/

/-- C8: when `OPENAI_API_KEY` is unset or empty, `transcribeAudio`, for every
path, prints `Error: Required OPENAI_API_KEY` and ends the process with exit
status 1, having opened no file and sent no request (no event at all). -/
theorem missing_key_exits_first (w : World) (audioFile : Bytes)
    (h : w.LookupEnv (str "OPENAI_API_KEY") = none ∨
      w.LookupEnv (str "OPENAI_API_KEY") = some []) :
    (transcribeAudio w audioFile).run =
      (.exited 1, { stdout := str "Error: Required OPENAI_API_KEY\n", events := [] }) := by
  have hk : w.Getenv (str "OPENAI_API_KEY") = [] := by
    rcases h with h | h <;> simp [World.Getenv, h]
  rw [run_noKey w audioFile hk]
  have e : str "Error: Required OPENAI_API_KEY" ++ str "\n" =
      str "Error: Required OPENAI_API_KEY\n" := by decide
  rw [e]

/-- The run without the variable, on a path that names no file. -/
theorem missing_key_exits_first_witness :
    (transcribeAudio (sampleWorld none none (.error (.foreign []))) (str "nowhere.mp4")).run =
      (.exited 1, { stdout := str "Error: Required OPENAI_API_KEY\n", events := [] }) :=
  missing_key_exits_first _ _ (Or.inl (by decide))

/-- C2: a run that hits an unrecoverable failure (no file argument, an empty
or unset `OPENAI_API_KEY`, or an error returned by `transcribeAudio`) writes
`Error: <cause>` and a line break to standard output and ends with a
non-zero exit status (1 by `os.Exit`; after an error of `transcribeAudio`, 2
by the panic on the `nil` transcript). -/
theorem failure_reported (w : World)
    (h : w.Args.length < 2 ∨ w.Getenv (str "OPENAI_API_KEY") = [] ∨
      ∃ t e, ((transcribeAudio w (w.Args.getD 1 [])).run).1 = .returned (t, some e)) :
    exitStatus ((main w).run).1 ≠ 0 ∧
      ∃ cause, ((main w).run).2.stdout = str "Error: " ++ cause ++ str "\n" := by
  by_cases hargs : w.Args.length < 2
  · rw [main_noArgs w hargs]
    refine ⟨by simp [exitStatus], ?_⟩
    refine ⟨str "The file to be processed must be passed as an argument." ++ str "\n" ++
      str "USAGE: OPENAI_API_KEY=\x7byour api key\x7d whisper-t \x7bfile\x7d", ?_⟩
    have e : str "Error: The file to be processed must be passed as an argument." =
        str "Error: " ++ str "The file to be processed must be passed as an argument." := by
      decide
    simp [e, List.append_assoc]
  · have h2 : 2 ≤ w.Args.length := by omega
    rcases run_shape w (w.Args.getD 1 []) with ⟨_, hrun⟩ | ⟨hk, hout, _, _, hres⟩
    · rw [main_exited w h2 1 _ hrun]
      refine ⟨by simp [exitStatus], str "Required OPENAI_API_KEY", ?_⟩
      have e : str "Error: Required OPENAI_API_KEY" = str "Error: " ++ str "Required OPENAI_API_KEY" := by
        decide
      simp [e]
    · have hret : ∃ e, ((transcribeAudio w (w.Args.getD 1 [])).run).1 = .returned (none, some e) := by
        rcases h with h | h | ⟨t, e, h⟩
        · exact absurd h hargs
        · exact absurd h hk
        · rcases hres with hres | ⟨t1, hres⟩ | ⟨m, hres⟩
          · exact hres
          · rw [hres] at h; simp at h
          · rw [hres] at h; simp at h
      obtain ⟨e, he⟩ := hret
      have hrun : (transcribeAudio w (w.Args.getD 1 [])).run =
          (.returned (none, some e), ((transcribeAudio w (w.Args.getD 1 [])).run).2) := by
        rw [← he]
      rw [main_failure w h2 e _ hrun]
      refine ⟨by simp [exitStatus], str "transcription error: " ++ e.Error, ?_⟩
      have e1 : str "Error: transcription error: " = str "Error: " ++ str "transcription error: " := by
        decide
      simp only [hout, e1, exitStatus]
      simp [List.append_assoc]

/-- The failure report when the file named on the command line does not exist. -/
theorem failure_reported_witness :
    exitStatus ((main (sampleWorld (some (str "k")) none (.error (.foreign [])))).run).1 ≠ 0 ∧
      ∃ cause, ((main (sampleWorld (some (str "k")) none (.error (.foreign [])))).run).2.stdout =
        str "Error: " ++ cause ++ str "\n" :=
  failure_reported (sampleWorld (some (str "k")) none (.error (.foreign [])))
    (Or.inr (Or.inr ⟨none, Errorf_w (str "Error: Failed to open audio file: ")
      (.foreign (str "open a.mp4: no such file or directory")), by decide⟩))

/-- C3: in a run in which `transcribeAudio` succeeds with transcript `t`, the
standard output of the program is exactly `t.Text` followed by one line
break, and `main` returns. -/
theorem success_output (w : World) (t : Transcript) (hargs : 2 ≤ w.Args.length)
    (h : ((transcribeAudio w (w.Args.getD 1 [])).run).1 = .returned (some t, none)) :
    ((main w).run).2.stdout = t.Text ++ str "\n" ∧ ((main w).run).1 = .returned () := by
  have hout : ((transcribeAudio w (w.Args.getD 1 [])).run).2.stdout = [] := by
    rcases run_shape w (w.Args.getD 1 []) with ⟨_, hrun⟩ | ⟨_, hout, _⟩
    · rw [hrun] at h; simp at h
    · exact hout
  have hrun : (transcribeAudio w (w.Args.getD 1 [])).run =
      (.returned (some t, none), ((transcribeAudio w (w.Args.getD 1 [])).run).2) := by
    rw [← h]
  rw [main_success w hargs t _ hrun]
  simp only [hout]
  simp

/-- The output of a successful run: the text `hello` and a line break. -/
theorem success_output_witness :
    ((main (answeringWorld 200 (str "200 OK") (str "\x7b\"text\":\"hello\"\x7d"))).run).2.stdout =
        str "hello" ++ str "\n" ∧
      ((main (answeringWorld 200 (str "200 OK") (str "\x7b\"text\":\"hello\"\x7d"))).run).1 =
        .returned () :=
  success_output (answeringWorld 200 (str "200 OK") (str "\x7b\"text\":\"hello\"\x7d"))
    { Text := str "hello" } (by decide) (by decide)

/-- C10, at the failing input (credential set, the file named on the command
line does not exist): `transcribeAudio` returns `nil` and an error, `main`
prints the error and goes on to read `transcript.Text` through the `nil`
pointer, which is a run-time panic. -/
theorem nil_transcript_dereferenced :
    ((transcribeAudio (sampleWorld (some (str "k")) none (.error (.foreign [])))
        (str "a.mp4")).run).1 =
      .returned (none, some (Errorf_w (str "Error: Failed to open audio file: ")
        (.foreign (str "open a.mp4: no such file or directory")))) ∧
    (main (sampleWorld (some (str "k")) none (.error (.foreign [])))).run =
      (.panicked (str "runtime error: invalid memory address or nil pointer dereference"),
        { stdout := str ("Error: transcription error: Error: Failed to open audio file: " ++
            "open a.mp4: no such file or directory\n"),
          events := [.openFile (str "a.mp4")] }) := by
  decide

/-- C1: for a response received by `transcribeAudio` (the answer `resp` the
client returns for a request it sent): when the status code is not 200 the
result is `nil` with the error `Error: Non-200 response: <code> <status>`,
where `<code>` is a decimal numeral that reads back as the status code, and
the body is neither read nor decoded; when the status code is 200 the body
is read, and an error returned is the wrapped error of reading or of
decoding the body, never that of the status check. -/
theorem status_check (w : World) (p : Bytes) (req : Request) (resp : Response)
    (hsent : req ∈ sentRequests ((transcribeAudio w p).run).2.events)
    (hresp : (clientDo w req).2 = .ok resp) :
    (resp.StatusCode ≠ 200 →
      (∃ code, readInt code = some resp.StatusCode ∧
        ((transcribeAudio w p).run).1 =
          .returned (none, some (.errorf (str "Error: Non-200 response: " ++
            code ++ str " " ++ resp.Status)))) ∧
      Event.readBody ∉ ((transcribeAudio w p).run).2.events ∧
      ∀ data, Event.unmarshal data ∉ ((transcribeAudio w p).run).2.events) ∧
    (resp.StatusCode = 200 →
      Event.readBody ∈ ((transcribeAudio w p).run).2.events ∧
      ∀ t e, ((transcribeAudio w p).run).1 = .returned (t, some e) →
        ∃ inner, e = Errorf_w (str "Error: Failed to read response body: ") inner ∨
          e = Errorf_w (str "Error: Failed to unmarshal JSON: ") inner) := by
  obtain ⟨file, c, hk, ho, hc, rfl⟩ := sent_inv w p req hsent
  have hcl : ∀ e ∈ (clientDo w
      (uploadRequest w.boundary p (w.Getenv (str "OPENAI_API_KEY")) c)).1,
      e ≠ Event.readBody ∧ ∀ data, e ≠ Event.unmarshal data :=
    clientDo_events w _
  constructor
  · intro hs
    rw [run_non200 w p _ c file resp rfl hk ho hc hresp hs]
    refine ⟨⟨decimal resp.StatusCode, readInt_decimal _, rfl⟩, ?_, ?_⟩
    · intro hmem
      simp only [List.mem_append, List.mem_cons, List.mem_singleton, List.not_mem_nil,
        or_false, reduceCtorEq, false_or] at hmem
      exact (hcl _ hmem).1 rfl
    · intro data hmem
      simp only [List.mem_append, List.mem_cons, List.mem_singleton, List.not_mem_nil,
        or_false, reduceCtorEq, false_or] at hmem
      exact (hcl _ hmem).2 data rfl
  · intro hs
    cases hb : resp.Body with
    | error err =>
      rw [run_bodyFails w p _ c file resp err rfl hk ho hc hresp hs hb]
      refine ⟨by simp, fun t e h => ⟨err, Or.inl ?_⟩⟩
      simp at h
      exact h.2.symm
    | ok body =>
      rw [run_decoded w p _ c body file resp rfl hk ho hc hresp hs hb]
      refine ⟨by simp, fun t e h => ?_⟩
      cases hU : Unmarshal body { Text := [] } with
      | outOfSync => simp [hU] at h
      | done t1 e1 =>
        cases e1 with
        | none => simp [hU] at h
        | some err =>
          simp [hU] at h
          exact ⟨_, Or.inr h.2.symm⟩

/-- The status check at the answer `404 Not Found`; the message written out
in full has the numeral `404`. -/
theorem status_check_witness :
    ((∃ code, readInt code = some 404 ∧
        ((transcribeAudio (answeringWorld 404 (str "404 Not Found") (str "gone"))
          (str "a.mp4")).run).1 =
          .returned (none, some (.errorf (str "Error: Non-200 response: " ++
            code ++ str " " ++ str "404 Not Found")))) ∧
      Event.readBody ∉
        ((transcribeAudio (answeringWorld 404 (str "404 Not Found") (str "gone"))
          (str "a.mp4")).run).2.events ∧
      ∀ data, Event.unmarshal data ∉
        ((transcribeAudio (answeringWorld 404 (str "404 Not Found") (str "gone"))
          (str "a.mp4")).run).2.events) ∧
    ((transcribeAudio (answeringWorld 404 (str "404 Not Found") (str "gone"))
        (str "a.mp4")).run).1 =
      .returned (none, some (.errorf (str "Error: Non-200 response: 404 404 Not Found"))) :=
  ⟨(status_check (answeringWorld 404 (str "404 Not Found") (str "gone")) (str "a.mp4")
      (uploadRequest sampleBoundary (str "a.mp4") (str "k") [1, 2, 3, 4])
      { StatusCode := 404, Status := str "404 Not Found", Location := .absent,
        Body := .ok (str "gone") }
      (by decide!) rfl).1 (by decide),
    by decide!⟩

/-- C4, as stated, fails: with the non-empty credential `a`, line feed, `b`
and a file that opens, the transport refuses the header `Authorization`
before anything is sent, so no request goes out and `transcribeAudio`
returns the error of the client; when no connection is made, with a valid
credential, nothing goes out either; and when the server answers the upload
with `303 See Other`, the client sends a second request, a GET to the
redirect's target without the body. -/
theorem control_byte_key_not_sent :
    (transcribeAudio (sampleWorld (some (str "a\nb")) (some (.ok [1, 2, 3, 4]))
        (.ok { StatusCode := 200, Status := str "200 OK", Location := .absent,
               Body := .ok (str "\x7b\"text\":\"hello\"\x7d") })) (str "a.mp4")).run =
      (.returned (none, some (Errorf_w (str "Error: Failed to send request: ")
          (.foreign (str "net/http: error")))),
        { stdout := [],
          events := [.openFile (str "a.mp4"), .readFile, .closeFile] }) ∧
    ((transcribeAudio (sampleWorld (some (str "k")) (some (.ok [1, 2, 3, 4]))
        (.error (.foreign (str "dial tcp: connection refused")))) (str "a.mp4")).run).2.events =
      [.openFile (str "a.mp4"), .readFile, .closeFile] ∧
    ((transcribeAudio (twoAnswerWorld (some (str "k")) (some (.ok [1, 2, 3, 4]))
        (.ok { StatusCode := 303, Status := str "303 See Other",
               Location := .target (str "https://example.org/t"), Body := .ok [] })
        (.ok { StatusCode := 200, Status := str "200 OK", Location := .absent,
               Body := .ok (str "\x7b\"text\":\"moved\"\x7d") })) (str "a.mp4")).run).2.events =
      [.openFile (str "a.mp4"), .readFile,
        .send (uploadRequest sampleBoundary (str "a.mp4") (str "k") [1, 2, 3, 4]),
        .resend (str "GET") (str "https://example.org/t") false,
        .readBody, .unmarshal (str "\x7b\"text\":\"moved\"\x7d"), .closeBody, .closeFile] := by
  refine ⟨?_, ?_, ?_⟩ <;> decide!

/-- C4, amended: for a path `p` whose file opens with contents `c` and a
non-empty credential `k` that is a valid header value (no control byte other
than the tab), the one request `transcribeAudio` builds and hands to the
client is a POST to the fixed transcription endpoint with the header
`Authorization: Bearer k`, whose body is the multipart encoding of two parts
in this order: a part with
`Content-Disposition: form-data; name="file"; filename="<base name of p>"`
(and the content type the source sets) whose payload is the whole of `c`,
and the form field `model` with value `whisper-1`; no other request of the
program's making is sent, and when the server is reached this request is
sent, first of all. -/
theorem upload_request (w : World) (p k c : Bytes) (file : File)
    (hk : w.LookupEnv (str "OPENAI_API_KEY") = some k) (hne : k ≠ [])
    (hv : ValidHeaderFieldValue k = true)
    (ho : w.Open p = .ok file) (hc : file.contents = .ok c) :
    (∀ r ∈ sentRequests ((transcribeAudio w p).run).2.events,
        r = uploadRequest w.boundary p k c) ∧
      (Reaches w (uploadRequest w.boundary p k c) →
        sentRequests ((transcribeAudio w p).run).2.events = [uploadRequest w.boundary p k c] ∧
        ((transcribeAudio w p).run).2.events.take 3 =
          [.openFile p, .readFile, .send (uploadRequest w.boundary p k c)]) ∧
      (uploadRequest w.boundary p k c).Method = str "POST" ∧
      (uploadRequest w.boundary p k c).URL =
        str "https://api.openai.com/v1/audio/transcriptions" ∧
      (uploadRequest w.boundary p k c).Header.Get (str "Authorization") =
        some (str "Bearer " ++ k) ∧
      (uploadRequest w.boundary p k c).Body = encodeMultipart w.boundary
        [{ header := [(str "Content-Disposition",
              str "form-data; name=\"file\"; filename=\"" ++ Base p ++ str "\""),
            (str "Content-Type", str "videp/mp4")],
           payload := c },
         { header := [(str "Content-Disposition", str "form-data; name=\"model\"")],
           payload := str "whisper-1" }] := by
  have hg : w.Getenv (str "OPENAI_API_KEY") = k := by simp [World.Getenv, hk]
  have hg2 : w.Getenv (str "OPENAI_API_KEY") ≠ [] := by rw [hg]; exact hne
  have hv2 : ValidHeaderFieldValue (w.Getenv (str "OPENAI_API_KEY")) = true := by
    rw [hg]; exact hv
  refine ⟨?_, ?_, rfl, rfl, ?_, rfl⟩
  · intro r hr
    obtain ⟨file1, c1, _, ho1, hc1, rfl⟩ := sent_inv w p r hr
    rw [ho] at ho1
    cases ho1
    rw [hc] at hc1
    cases hc1
    rw [hg]
  · intro hreach
    rw [← hg] at hreach
    refine ⟨?_, ?_⟩
    · rw [sent_eq w p c file hg2 hv2 ho hc hreach, hg]
    · have h3 := first_events w p c file hg2 hv2 ho hc hreach
      rw [hg] at h3
      exact h3
  · have h1 : str "Content-Type" ≠ str "Authorization" := by decide
    simp [uploadRequest, Header.Get, canonical_authorization, h1]

/-- The request sent for the sample file `a.mp4` with credential `k`, to a
server that answers: it goes out, first of all, with the bearer header. -/
theorem upload_request_witness :
    (sentRequests ((transcribeAudio
        (answeringWorld 200 (str "200 OK") (str "\x7b\"text\":\"hello\"\x7d"))
        (str "a.mp4")).run).2.events =
        [uploadRequest (answeringWorld 200 (str "200 OK")
          (str "\x7b\"text\":\"hello\"\x7d")).boundary (str "a.mp4") (str "k") [1, 2, 3, 4]] ∧
      ((transcribeAudio (answeringWorld 200 (str "200 OK") (str "\x7b\"text\":\"hello\"\x7d"))
        (str "a.mp4")).run).2.events.take 3 =
          [.openFile (str "a.mp4"), .readFile,
            .send (uploadRequest (answeringWorld 200 (str "200 OK")
              (str "\x7b\"text\":\"hello\"\x7d")).boundary (str "a.mp4") (str "k")
              [1, 2, 3, 4])]) ∧
    (uploadRequest (answeringWorld 200 (str "200 OK")
        (str "\x7b\"text\":\"hello\"\x7d")).boundary (str "a.mp4") (str "k")
        [1, 2, 3, 4]).Header.Get (str "Authorization") = some (str "Bearer " ++ str "k") :=
  ⟨(upload_request (answeringWorld 200 (str "200 OK") (str "\x7b\"text\":\"hello\"\x7d"))
      (str "a.mp4") (str "k") [1, 2, 3, 4] { contents := .ok [1, 2, 3, 4] }
      (by decide) (by decide) (by decide) rfl rfl).2.1 (fun _ h => by cases h),
    (upload_request (answeringWorld 200 (str "200 OK") (str "\x7b\"text\":\"hello\"\x7d"))
      (str "a.mp4") (str "k") [1, 2, 3, 4] { contents := .ok [1, 2, 3, 4] }
      (by decide) (by decide) (by decide) rfl rfl).2.2.2.2.1⟩

/-- C7, as stated, fails both ways: when the server answers the upload with
`307 Temporary Redirect` and a `Location`, the client follows and two
requests go out in the one invocation; and with the credential `a`, line
feed, `b`, or when no connection is made, no request goes out although the
credential is present, the file opens and the multipart body is built. -/
theorem requests_not_exactly_one :
    outboundRequests ((transcribeAudio (redirectingWorld (str "k")) (str "a.mp4")).run).2.events
        = 2 ∧
    ((transcribeAudio (redirectingWorld (str "k")) (str "a.mp4")).run).1 =
        .returned (some { Text := str "moved" }, none) ∧
    outboundRequests ((transcribeAudio (redirectingWorld (str "a\nb"))
        (str "a.mp4")).run).2.events = 0 ∧
    outboundRequests ((transcribeAudio (sampleWorld (some (str "k")) (some (.ok [1, 2, 3, 4]))
        (.error (.foreign (str "dial tcp: connection refused")))) (str "a.mp4")).run).2.events
        = 0 := by
  refine ⟨?_, ?_, ?_, ?_⟩ <;> decide!

/-- C7, amended: an invocation of `transcribeAudio` hands at most one request
to the HTTP client and never retries, whatever the outcome; the client sends
at most ten requests in all (the request and the redirects it follows).
Exactly one request goes out when the credential is present and is a valid
header value, the file opens and is read into the multipart body, the server
is reached, and the answer, if one comes, is no redirect to follow (its
status is none of 301, 302, 303, 307, 308, or it has no `Location`). -/
theorem one_call_of_client (w : World) (p : Bytes) :
    (sentRequests ((transcribeAudio w p).run).2.events).length ≤ 1 ∧
      outboundRequests ((transcribeAudio w p).run).2.events ≤ 10 ∧
      (∀ file c, w.Getenv (str "OPENAI_API_KEY") ≠ [] →
        ValidHeaderFieldValue (w.Getenv (str "OPENAI_API_KEY")) = true →
        w.Open p = .ok file → file.contents = .ok c →
        Reaches w (uploadRequest w.boundary p (w.Getenv (str "OPENAI_API_KEY")) c) →
        (∀ resp, w.RoundTrip
            (uploadRequest w.boundary p (w.Getenv (str "OPENAI_API_KEY")) c) = .ok resp →
          redirectBehavior (str "POST") resp = none ∨ resp.Location = .absent) →
        outboundRequests ((transcribeAudio w p).run).2.events = 1) := by
  refine ⟨?_, ?_, ?_⟩
  · rcases run_shape w p with ⟨_, hrun⟩ | ⟨_, _, hle, _⟩
    · simp [hrun, sentRequests]
    · exact hle
  · rcases run_shape w p with ⟨_, hrun⟩ | ⟨_, _, _, hle, _⟩
    · simp [hrun, outboundRequests]
    · exact hle
  · intro file c hk hv ho hc hreach hfinal
    rw [(run_reaching_client w p c file hk ho hc).2.2.1]
    have hval := validateHeaders_upload w p (w.Getenv (str "OPENAI_API_KEY")) c
    rw [hv] at hval
    simp only [if_true] at hval
    cases hr : w.RoundTrip (uploadRequest w.boundary p (w.Getenv (str "OPENAI_API_KEY")) c) with
    | error f =>
      obtain ⟨err, sent⟩ := f
      cases sent with
      | false => exact absurd hr (hreach err)
      | true => simp [clientDo, hval, hr, outboundRequests]
    | ok resp =>
      have hf := followRedirects_final w 9 1 (str "POST") resp (hfinal resp hr)
      have hm : (uploadRequest w.boundary p (w.Getenv (str "OPENAI_API_KEY")) c).Method =
          str "POST" := rfl
      simp [clientDo, hval, hr, hm, hf, outboundRequests]

/-- One request goes out when the server answers 500. -/
theorem one_call_of_client_witness :
    outboundRequests ((transcribeAudio (answeringWorld 500 (str "500 Internal Server Error") [])
      (str "a.mp4")).run).2.events = 1 :=
  (one_call_of_client (answeringWorld 500 (str "500 Internal Server Error") [])
      (str "a.mp4")).2.2
    { contents := .ok [1, 2, 3, 4] } [1, 2, 3, 4] (by decide) (by decide) rfl rfl
    (fun _ h => by cases h) (fun _ h => Or.inr (by cases h; rfl))

/-- C9: the source does not split the input, against the claim and the TODO
at `main.go:34`.  For a file of contents `c`, of whatever length, read with a
valid credential, the one request a run of `main` builds carries the whole
of `c` in its file part, and when the server is reached that request is what
the run sends. -/
theorem no_segmentation (w : World) (k c : Bytes) (file : File)
    (hargs : 2 ≤ w.Args.length)
    (hk : w.LookupEnv (str "OPENAI_API_KEY") = some k) (hne : k ≠ [])
    (hv : ValidHeaderFieldValue k = true)
    (ho : w.Open (w.Args.getD 1 []) = .ok file) (hc : file.contents = .ok c)
    (hreach : Reaches w (uploadRequest w.boundary (w.Args.getD 1 []) k c)) :
    sentRequests ((main w).run).2.events =
      [uploadRequest w.boundary (w.Args.getD 1 []) k c] := by
  have hg : w.Getenv (str "OPENAI_API_KEY") = k := by simp [World.Getenv, hk]
  have hg2 : w.Getenv (str "OPENAI_API_KEY") ≠ [] := by rw [hg]; exact hne
  have hv2 : ValidHeaderFieldValue (w.Getenv (str "OPENAI_API_KEY")) = true := by
    rw [hg]; exact hv
  rw [← hg] at hreach
  rw [main_events w hargs, sent_eq w _ c file hg2 hv2 ho hc hreach, hg]

/-- The whole sample file goes out in one request. -/
theorem no_segmentation_witness :
    sentRequests ((main (answeringWorld 503 (str "503 Service Unavailable") [])).run).2.events =
      [uploadRequest (answeringWorld 503 (str "503 Service Unavailable") []).boundary
        (str "a.mp4") (str "k") [1, 2, 3, 4]] :=
  no_segmentation (answeringWorld 503 (str "503 Service Unavailable") []) (str "k")
    [1, 2, 3, 4] { contents := .ok [1, 2, 3, 4] } (by decide) (by decide) (by decide)
    (by decide) rfl rfl (fun _ h => by cases h)

/-- C5, as stated, fails: the body `{"text":"a","TEXT":1}` is a JSON object
with the string member `text` of value `a`, yet `transcribeAudio` returns
`nil` and a decode error, because the key `TEXT` selects the same field and
a number cannot be stored there; and for `{"text":"a","Text":"b"}` it
returns the text `b`, not `a`. -/
theorem text_member_overridden :
    (checkValid (str "\x7b\"text\":\"a\",\"TEXT\":1\x7d") = none ∧
      document (str "\x7b\"text\":\"a\",\"TEXT\":1\x7d") =
        some (.object [(str "text", .string (str "a")), (str "TEXT", .number)]) ∧
      ((transcribeAudio (answeringWorld 200 (str "200 OK")
          (str "\x7b\"text\":\"a\",\"TEXT\":1\x7d")) (str "a.mp4")).run).1 =
        .returned (none, some (Errorf_w (str "Error: Failed to unmarshal JSON: ")
          (.foreign (str "json: error"))))) ∧
    (checkValid (str "\x7b\"text\":\"a\",\"Text\":\"b\"\x7d") = none ∧
      document (str "\x7b\"text\":\"a\",\"Text\":\"b\"\x7d") =
        some (.object [(str "text", .string (str "a")), (str "Text", .string (str "b"))]) ∧
      ((transcribeAudio (answeringWorld 200 (str "200 OK")
          (str "\x7b\"text\":\"a\",\"Text\":\"b\"\x7d")) (str "a.mp4")).run).1 =
        .returned (some { Text := str "b" }, none)) := by
  refine ⟨⟨?_, ?_, ?_⟩, ?_, ?_, ?_⟩ <;> decide

/-- C5, amended: for a 200 response whose body passes the syntax check of
`encoding/json` (`checkValid`, which also bounds the nesting depth) and is
read by the decoder as an object with a string member `text` of value `s`,
in which every other member whose key selects the field (equals `text` up to
the case of ASCII letters) is `null` or is a string standing before that
member, `transcribeAudio` returns a transcript whose `Text` is `s`, and no
error. -/
theorem text_member_decoded (w : World) (p : Bytes) (req : Request) (resp : Response)
    (body s : Bytes) (before after : List (Bytes × Member))
    (hsent : req ∈ sentRequests ((transcribeAudio w p).run).2.events)
    (hresp : (clientDo w req).2 = .ok resp) (hs : resp.StatusCode = 200)
    (hb : resp.Body = .ok body)
    (hvalid : checkValid body = none)
    (hdoc : document body = some (.object (before ++ (str "text", .string s) :: after)))
    (hbefore : ∀ kv ∈ before, matchesText kv.1 = true → storable kv.2 = true)
    (hafter : ∀ kv ∈ after, matchesText kv.1 = true → kv.2 = .null) :
    ((transcribeAudio w p).run).1 = .returned (some { Text := s }, none) := by
  obtain ⟨file, c, hk, ho, hc, rfl⟩ := sent_inv w p req hsent
  rw [run_decoded w p _ c body file resp rfl hk ho hc hresp hs hb]
  have hm : matchesText (str "text") = true := by decide
  have hU : Unmarshal body { Text := [] } = .done { Text := s } none := by
    simp only [Unmarshal, hvalid, hdoc, decodeDocument, decodeMembers_append,
      decodeMembers_storable before _ hbefore, decodeMembers, hm, if_true, storeText, saveError,
      decodeMembers_null after _ _ hafter]
  simp [hU]

/-- The member `text` wins over an earlier `Text` and a later `TEXT` that is `null`. -/
theorem text_member_decoded_witness :
    ((transcribeAudio (answeringWorld 200 (str "200 OK")
        (str "\x7b\"id\":7,\"Text\":\"old\",\"text\":\"hello\",\"TEXT\":null\x7d"))
      (str "a.mp4")).run).1 = .returned (some { Text := str "hello" }, none) :=
  text_member_decoded
    (answeringWorld 200 (str "200 OK")
      (str "\x7b\"id\":7,\"Text\":\"old\",\"text\":\"hello\",\"TEXT\":null\x7d"))
    (str "a.mp4") (uploadRequest sampleBoundary (str "a.mp4") (str "k") [1, 2, 3, 4])
    { StatusCode := 200, Status := str "200 OK", Location := .absent,
      Body := .ok (str "\x7b\"id\":7,\"Text\":\"old\",\"text\":\"hello\",\"TEXT\":null\x7d") }
    (str "\x7b\"id\":7,\"Text\":\"old\",\"text\":\"hello\",\"TEXT\":null\x7d") (str "hello")
    [(str "id", .number), (str "Text", .string (str "old"))] [(str "TEXT", .null)]
    (by decide!) rfl rfl rfl (by decide!) (by decide!) (by decide!) (by decide!)

/-- C6, as stated, fails: for the bodies `null`, `{}` and `{"text":null}`,
which carry no string member `text`, `transcribeAudio` returns a transcript
with empty text and no error. -/
theorem empty_documents_decoded :
    ((transcribeAudio (answeringWorld 200 (str "200 OK") (str "null")) (str "a.mp4")).run).1 =
        .returned (some { Text := [] }, none) ∧
    ((transcribeAudio (answeringWorld 200 (str "200 OK") (str "\x7b\x7d")) (str "a.mp4")).run).1 =
        .returned (some { Text := [] }, none) ∧
    ((transcribeAudio (answeringWorld 200 (str "200 OK") (str "\x7b\"text\":null\x7d"))
        (str "a.mp4")).run).1 = .returned (some { Text := [] }, none) := by
  decide

/-- C6, amended: for a 200 response whose body the syntax check of
`encoding/json` (`checkValid`) rejects, or accepts and the decoder reads as
an array, a string, a number or a boolean, or as an object with a member
whose key selects the field (equals `text` up to the case of ASCII letters)
and whose value is neither a string nor `null`, `transcribeAudio` returns
`nil` and the wrapped decode error. -/
theorem undecodable_body_fails (w : World) (p : Bytes) (req : Request) (resp : Response)
    (body : Bytes)
    (hsent : req ∈ sentRequests ((transcribeAudio w p).run).2.events)
    (hresp : (clientDo w req).2 = .ok resp) (hs : resp.StatusCode = 200)
    (hb : resp.Body = .ok body)
    (hu : Undecodable body) :
    ∃ err, ((transcribeAudio w p).run).1 =
      .returned (none, some (Errorf_w (str "Error: Failed to unmarshal JSON: ")
        (.foreign (w.jsonErrorText err)))) := by
  obtain ⟨file, c, hk, ho, hc, rfl⟩ := sent_inv w p req hsent
  rw [run_decoded w p _ c body file resp rfl hk ho hc hresp hs hb]
  have hU : ∃ t err, Unmarshal body { Text := [] } = .done t (some err) := by
    cases hv : checkValid body with
    | some err => exact ⟨{ Text := [] }, err, by simp [Unmarshal, hv]⟩
    | none =>
      rcases hu with hu | hu
      · exact absurd hv hu
      · cases hd : document body with
        | none => simp [hd] at hu
        | some doc =>
          rw [hd] at hu
          cases doc with
          | null => simp at hu
          | bool =>
            exact ⟨{ Text := [] }, .unmarshalType (str "bool") false,
              by simp [Unmarshal, hv, hd, decodeDocument]⟩
          | number =>
            exact ⟨{ Text := [] }, .unmarshalType (str "number") false,
              by simp [Unmarshal, hv, hd, decodeDocument]⟩
          | string s =>
            exact ⟨{ Text := [] }, .unmarshalType (str "string") false,
              by simp [Unmarshal, hv, hd, decodeDocument]⟩
          | array =>
            exact ⟨{ Text := [] }, .unmarshalType (str "array") false,
              by simp [Unmarshal, hv, hd, decodeDocument]⟩
          | object members =>
            obtain ⟨e, he⟩ := decodeMembers_error members { Text := [] } hu
            exact ⟨(decodeMembers members { Text := [] } none).1, e,
              by simp [Unmarshal, hv, hd, decodeDocument, he]⟩
  obtain ⟨t, err, hU⟩ := hU
  exact ⟨err, by simp [hU]⟩

/-- A body the syntax check rejects (`<html>`) and an array under the key
`Text` are both decode errors. -/
theorem undecodable_body_fails_witness :
    (∃ err, ((transcribeAudio (answeringWorld 200 (str "200 OK") (str "<html>"))
        (str "a.mp4")).run).1 =
      .returned (none, some (Errorf_w (str "Error: Failed to unmarshal JSON: ")
        (.foreign ((answeringWorld 200 (str "200 OK") (str "<html>")).jsonErrorText err))))) ∧
    (∃ err, ((transcribeAudio (answeringWorld 200 (str "200 OK") (str "\x7b\"Text\":[1]\x7d"))
        (str "a.mp4")).run).1 =
      .returned (none, some (Errorf_w (str "Error: Failed to unmarshal JSON: ")
        (.foreign ((answeringWorld 200 (str "200 OK")
          (str "\x7b\"Text\":[1]\x7d")).jsonErrorText err))))) :=
  ⟨undecodable_body_fails (answeringWorld 200 (str "200 OK") (str "<html>"))
      (str "a.mp4") (uploadRequest sampleBoundary (str "a.mp4") (str "k") [1, 2, 3, 4])
      { StatusCode := 200, Status := str "200 OK", Location := .absent,
        Body := .ok (str "<html>") }
      (str "<html>") (by decide!) rfl rfl rfl (Or.inl (by decide!)),
    undecodable_body_fails (answeringWorld 200 (str "200 OK") (str "\x7b\"Text\":[1]\x7d"))
      (str "a.mp4") (uploadRequest sampleBoundary (str "a.mp4") (str "k") [1, 2, 3, 4])
      { StatusCode := 200, Status := str "200 OK", Location := .absent,
        Body := .ok (str "\x7b\"Text\":[1]\x7d") }
      (str "\x7b\"Text\":[1]\x7d") (by decide!) rfl rfl rfl
      (Or.inr ⟨(str "Text", .array), by decide!, by decide!, by decide!⟩)⟩

end WhisperT
